import Mathlib

/-!
HID/PID protocol adapter of the wheel firmware (brWheel_my/ffb_tinyusb.cpp)

A shallow embedding of the TinyUSB callbacks of the wheel firmware
(`tud_hid_get_report_cb`, `tud_hid_set_report_cb`, `HID_SendReport`,
`SendInputReport`) and the properties of their byte-level behaviour.

Conventions of the embedding

* A byte is a `Nat`; a conversion to `uint8_t` / `uint16_t` that the C source
  performs is written explicitly (`u8`, `u16`).  Where the source moves a
  `uint8_t` into a `uint8_t` (plain copies, `memcpy`) no reduction is written.
* A C object that is accessed through `memcpy` / `memset` is its byte image,
  a `List Nat` whose length is the `sizeof` of the object.
* Memory accesses are checked: an access outside the object makes the
  operation return `none`.
* The calls made to the collaborators (Effect Engine, device stack) are
  recorded, in order, in the `calls` component of the state.
* The table `hid_report_descriptor` is transcribed element by element, with
  the build-time macros as parameters; what it declares is read off with the
  item grammar of the HID specification (`hidItems`, `hidFields`).
-/

namespace FfbTinyusb

set_option autoImplicit false
set_option maxRecDepth 100000

/-! ## Machine integers -/

/-- Conversion to `uint8_t`. -/
def u8 (n : Nat) : Nat := n % 256

/-- Conversion to `uint16_t`. -/
def u16 (n : Nat) : Nat := n % 65536

/-! ## Joystick report packing -/

/-- The buffer `j` of `SendInputReport` after its twelve assignments
(`uint8_t j[12]`; every store converts to `uint8_t`). -/
def SendInputReport_j (x y z rx ry buttons : Nat) : List Nat :=
  [ u8 x,
    u8 (x >>> 8),
    u8 y,
    u8 (y >>> 8),
    u8 z,
    u8 (u8 ((z >>> 8) &&& 0xf) ||| u8 ((rx &&& 0xf) <<< 4)),
    u8 (rx >>> 4),
    u8 ry,
    u8 (u8 ((ry >>> 8) &&& 0xf) ||| u8 ((buttons &&& 0xf) <<< 4)),
    u8 (buttons >>> 4),
    u8 (buttons >>> 12),
    u8 (buttons >>> 20) ]

/-! ## Collaborators and state -/

/-- The report type handed over by the device stack (TinyUSB `hid_report_type_t`). -/
inductive hid_report_type_t
  | HID_REPORT_TYPE_INVALID
  | HID_REPORT_TYPE_INPUT
  | HID_REPORT_TYPE_OUTPUT
  | HID_REPORT_TYPE_FEATURE
  deriving DecidableEq, Repr

/-- Modelled from the spec: the declaration of
`USB_FFBReport_PIDBlockLoad_Feature_Data_t` (ffb.h) is not among the sources.
Fields as in the block load status report (id 6) of the descriptor table:
report id, effect block index (8 bit), load status (8 bit), RAM pool
available (16 bit), laid out packed in this order. -/
structure USB_FFBReport_PIDBlockLoad_Feature_Data_t where
  reportId : Nat
  effectBlockIndex : Nat
  loadStatus : Nat
  ramPoolAvailable : Nat
  deriving DecidableEq, Repr

/-- Modelled from the spec: the declaration of
`USB_FFBReport_PIDPool_Feature_Data_t` (ffb.h) is not among the sources.
Fields as in the pool report (id 7) of the descriptor table: report id, RAM
pool size (16 bit), simultaneous effects max (8 bit), memory management flags
(8 bit), laid out packed in this order. -/
structure USB_FFBReport_PIDPool_Feature_Data_t where
  reportId : Nat
  ramPoolSize : Nat
  maxSimultaneousEffects : Nat
  memoryManagement : Nat
  deriving DecidableEq, Repr

/-- Object representation of a block load structure (packed, little-endian). -/
def USB_FFBReport_PIDBlockLoad_Feature_Data_t.bytes
    (d : USB_FFBReport_PIDBlockLoad_Feature_Data_t) : List Nat :=
  [u8 d.reportId, u8 d.effectBlockIndex, u8 d.loadStatus,
   u8 d.ramPoolAvailable, u8 (d.ramPoolAvailable >>> 8)]

/-- Object representation of a pool structure (packed, little-endian). -/
def USB_FFBReport_PIDPool_Feature_Data_t.bytes
    (d : USB_FFBReport_PIDPool_Feature_Data_t) : List Nat :=
  [u8 d.reportId, u8 d.ramPoolSize, u8 (d.ramPoolSize >>> 8),
   u8 d.maxSimultaneousEffects, u8 d.memoryManagement]

/-- Value of `sizeof(USB_FFBReport_PIDBlockLoad_Feature_Data_t)`. -/
def sizeof_PIDBlockLoad : Nat := 5

/-- Value of `sizeof(USB_FFBReport_PIDPool_Feature_Data_t)`. -/
def sizeof_PIDPool : Nat := 5

/-- Modelled from the spec: the declaration of
`USB_FFBReport_CreateNewEffect_Feature_Data_t` (ffb.h) is not among the
sources.  Fields as in the create new effect report (id 5) of the descriptor
table: report id, effect type (8 bit), byte count (10 bit and 6 bit of
padding), packed: four bytes. -/
def sizeof_CreateNewEffect : Nat := 4

/-- A call made to a collaborator.  A `(pointer, length)` pair is recorded as
the `length` bytes the pointer designates, together with the length; a pointer
to a structure is recorded as the object representation of the structure. -/
inductive Call
  | FfbOnUsbData (data : List Nat) (len : Nat)
  | FfbOnCreateNewEffect (inData : List Nat)
  | FfbOnPIDPool (data : List Nat)
  | tud_hid_report (id : Nat) (data : List Nat) (len : Nat)
  deriving DecidableEq, Repr

/-- The state the callbacks act on: the mailbox `gNewEffectBlockLoad` and the
calls made so far to the Effect Engine and to the device stack. -/
structure State where
  gNewEffectBlockLoad : USB_FFBReport_PIDBlockLoad_Feature_Data_t
  calls : List Call
  deriving DecidableEq, Repr

/-- What the Effect Engine's `FfbOnCreateNewEffect(inData, outData)` stores
through `outData`, from the request and the previous content of `outData`.
The function is external to the adapter; it is a parameter of the model. -/
abbrev CreateNewEffectHandler :=
  List Nat → USB_FFBReport_PIDBlockLoad_Feature_Data_t → USB_FFBReport_PIDBlockLoad_Feature_Data_t

/-! ## Memory -/

/-- The library function `memcpy(dst + dOff, src + sOff, n)` on byte images:
`none` when it would read outside `src` or write outside `dst`. -/
def memcpy (dst : List Nat) (dOff : Nat) (src : List Nat) (sOff n : Nat) : Option (List Nat) :=
  if dOff + n ≤ dst.length ∧ sOff + n ≤ src.length then
    some (dst.take dOff ++ (src.drop sOff).take n ++ dst.drop (dOff + n))
  else none

/-! ## TinyUSB callbacks -/

/-- The local `ans` of `tud_hid_get_report_cb` (report id 7) after its four
assignments. -/
def tud_hid_get_report_cb_ans (MAX_EFFECTS report_id : Nat) :
    USB_FFBReport_PIDPool_Feature_Data_t :=
  { reportId := report_id,
    ramPoolSize := u16 0xffff,
    maxSimultaneousEffects := u8 MAX_EFFECTS,
    memoryManagement := u8 3 }

/-- The callback `tud_hid_get_report_cb(instance, report_id, report_type, buffer, reqlen)`.
`buffer` is the host buffer before the call; the result is the returned
length, the host buffer after the call and the state after the call, `none`
when an access leaves its object.  The argument `instance` is not used by the
source and is left out.  `MAX_EFFECTS` is the macro of ffb.h, a parameter
here. -/
def tud_hid_get_report_cb (MAX_EFFECTS : Nat) (s : State) (report_id : Nat)
    (report_type : hid_report_type_t) (buffer : List Nat) (reqlen : Nat) :
    Option (Nat × List Nat × State) :=
  if report_type ≠ hid_report_type_t.HID_REPORT_TYPE_FEATURE then
    some (0, buffer, s)
  else if report_id = 6 then
    let tmp := s.gNewEffectBlockLoad
    let avail := if sizeof_PIDBlockLoad > 1 then u16 (sizeof_PIDBlockLoad - 1) else 0
    let len := if reqlen < avail then reqlen else avail
    match (if len > 0 then memcpy buffer 0 tmp.bytes 1 len else some buffer) with
    | none => none
    | some buffer1 =>
      some (len, buffer1,
        { s with gNewEffectBlockLoad := { s.gNewEffectBlockLoad with reportId := 0 } })
  else if report_id = 7 then
    let ans := tud_hid_get_report_cb_ans MAX_EFFECTS report_id
    let avail := if sizeof_PIDPool > 1 then u16 (sizeof_PIDPool - 1) else 0
    let len := if reqlen < avail then reqlen else avail
    match (if len > 0 then memcpy buffer 0 ans.bytes 1 len else some buffer) with
    | none => none
    | some buffer1 => some (len, buffer1, s)
  else
    some (0, buffer, s)

/-- The callback `tud_hid_set_report_cb(instance, report_id, report_type, buffer, bufsize)`.
The result is the state after the call, `none` when an access leaves its
object.  The argument `instance` is not used by the source and is left out.
`FfbOnUsbData` and `FfbOnPIDPool` receive a pointer to a local object and a
length only; they are recorded as calls. -/
def tud_hid_set_report_cb (FfbOnCreateNewEffect : CreateNewEffectHandler) (s : State)
    (report_id : Nat) (report_type : hid_report_type_t) (buffer : List Nat) (bufsize : Nat) :
    Option State :=
  if report_type = hid_report_type_t.HID_REPORT_TYPE_FEATURE then
    if report_id = 5 then
      let in0 := (List.replicate sizeof_CreateNewEffect 0).set 0 report_id
      let avail := if sizeof_CreateNewEffect > 1 then u16 (sizeof_CreateNewEffect - 1) else 0
      let len := if bufsize < avail then bufsize else avail
      match (if len > 0 then memcpy in0 1 buffer 0 len else some in0) with
      | none => none
      | some in1 =>
        some { gNewEffectBlockLoad := FfbOnCreateNewEffect in1 s.gNewEffectBlockLoad,
               calls := s.calls ++ [Call.FfbOnCreateNewEffect in1] }
    else if report_id = 7 then
      let pool0 := (List.replicate sizeof_PIDPool 0).set 0 report_id
      let avail := if sizeof_PIDPool > 1 then u16 (sizeof_PIDPool - 1) else 0
      let len := if bufsize < avail then bufsize else avail
      match (if len > 0 then memcpy pool0 1 buffer 0 len else some pool0) with
      | none => none
      | some pool1 => some { s with calls := s.calls ++ [Call.FfbOnPIDPool pool1] }
    else some s
  else if report_type = hid_report_type_t.HID_REPORT_TYPE_OUTPUT then
    -- `rid`, `data` (as an offset into `buffer`) and `len` after the id recovery
    match (if report_id = 0 ∧ bufsize > 0 then
             buffer[0]?.map (fun b => (b, 1, bufsize - 1))
           else some (report_id, 0, bufsize)) with
    | none => none
    | some (rid, data, len) =>
      if rid = 0 then some s
      else
        let temp0 := List.replicate 65 0
        let copy_len := if len > 65 - 1 then u16 (65 - 1) else len
        let temp1 := temp0.set 0 rid
        match (if copy_len > 0 then memcpy temp1 1 buffer data copy_len else some temp1) with
        | none => none
        | some temp2 =>
          some { s with
            calls := s.calls ++
              [Call.FfbOnUsbData (temp2.take (u16 (copy_len + 1))) (u16 (copy_len + 1))] }
  else some s

/-- The function `HID_SendReport(id, data, len)`; `tud_hid_ready` is the answer
of the device stack to `tud_hid_ready()`. -/
def HID_SendReport (tud_hid_ready : Bool) (s : State) (id : Nat) (data : List Nat) (len : Nat) :
    State :=
  if !tud_hid_ready then s
  else { s with calls := s.calls ++ [Call.tud_hid_report id (data.take (u16 len)) (u16 len)] }

/-- The function `SendInputReport(x, y, z, rx, ry, buttons)`. -/
def SendInputReport (tud_hid_ready : Bool) (s : State) (x y z rx ry buttons : Nat) : State :=
  HID_SendReport tud_hid_ready s 4 (SendInputReport_j x y z rx ry buttons) 12

/-! ## Wire-level reading of a report (specification side) -/

/-- Little-endian byte encoding of `n` on `k` bytes: byte `i` carries bits
`8*i .. 8*i+7` of `n`. -/
def leBytes (k n : Nat) : List Nat :=
  (List.range k).map (fun i => (n / 256 ^ i) % 256)

/-- The 96-bit integer obtained by concatenating the six fields
least-significant-bit-first with the widths 16, 16, 12, 12, 12, 28. -/
def reportWord (x y z rx ry buttons : Nat) : Nat :=
  x + y * 2 ^ 16 + z * 2 ^ 32 + rx * 2 ^ 44 + ry * 2 ^ 56 + buttons * 2 ^ 68

/-- Value of a little-endian byte sequence. -/
def leValue : List Nat → Nat
  | [] => 0
  | b :: bs => b + 256 * leValue bs

/-- The field of `w` bits that starts at bit `off` of `v`. -/
def bitField (v off w : Nat) : Nat := (v / 2 ^ off) % 2 ^ w

/-- Unpacking of a joystick report by the bit layout 16, 16, 12, 12, 12, 28
(least-significant-bit-first): `(x, y, z, rx, ry, buttons)`. -/
def unpackReport (j : List Nat) : Nat × Nat × Nat × Nat × Nat × Nat :=
  let v := leValue j
  (bitField v 0 16, bitField v 16 16, bitField v 32 12, bitField v 44 12,
   bitField v 56 12, bitField v 68 28)

/-- The byte image a Feature Set decode is to build for a structure of
`k + 1` bytes (specification side): the id, then the first `min L k` bytes of
the buffer, then zeros up to `k + 1` bytes. -/
def decodedImage (id k : Nat) (buffer : List Nat) (L : Nat) : List Nat :=
  id :: (buffer.take (min L k) ++ List.replicate (k - min L k) 0)

/-! ## The report descriptor -/

/-- Modelled from the spec: the build-time macros that `hid_report_descriptor`
substitutes (axis bit widths, logical and physical ranges, button count,
number of force feedback axes) are defined in headers that are not among the
sources (ConfigHID.h, ffb.h).  They are parameters of the table. -/
structure ConfigHID where
  X_AXIS_NB_BITS : Int
  X_AXIS_LOG_MIN : Int
  X_AXIS_LOG_MAX : Int
  X_AXIS_PHYS_MAX : Int
  Y_AXIS_NB_BITS : Int
  Y_AXIS_LOG_MIN : Int
  Y_AXIS_LOG_MAX : Int
  Y_AXIS_PHYS_MAX : Int
  Z_AXIS_NB_BITS : Int
  Z_AXIS_LOG_MIN : Int
  Z_AXIS_LOG_MAX : Int
  Z_AXIS_PHYS_MAX : Int
  RX_AXIS_NB_BITS : Int
  RX_AXIS_LOG_MIN : Int
  RX_AXIS_LOG_MAX : Int
  RX_AXIS_PHYS_MAX : Int
  RY_AXIS_NB_BITS : Int
  RY_AXIS_LOG_MIN : Int
  RY_AXIS_LOG_MAX : Int
  RY_AXIS_PHYS_MAX : Int
  NB_BUTTONS : Int
  NB_FF_AXIS : Int

/-- Conversion of an initializer (an `int` constant expression) to the
`uint8_t` element of the table. -/
def initByte (v : Int) : Nat := (v % 256).toNat

/-- The table `hid_report_descriptor`, element by element, one source line per
line.  Preprocessor state as in the file: `ADD_JOYSTICK` defined, `ADD_MOUSE`,
`ADD_KEYBOARD` and `RAWHID_ENABLED` not defined, the block under
`#ifdef NB_FF_AXIS>1` present (the macro is defined, it is used two lines
below).  `X & 0xFF` is `Int.land X 0xFF`. -/
def hid_report_descriptor (c : ConfigHID) : List Nat :=
  [
    0x05, 0x01,  -- USAGE_PAGE (Generic Desktop)
    0x09, 0x04,  -- USAGE (Joystick)
    0xA1, 0x01,  -- COLLECTION (Application)
    0x85, 0x04,  -- REPORT_ID (04)
    0x09, 0x01,  -- USAGE (Pointer)
    0xA1, 0x00,  -- COLLECTION (Physical)
    0x09, 0x30,  -- USAGE (x)
    0x17, initByte (Int.land c.X_AXIS_LOG_MIN 0xFF),  -- LOGICAL_MINIMUM
    initByte (Int.land (c.X_AXIS_LOG_MIN >>> 8) 0xFF),
    initByte (Int.land (c.X_AXIS_LOG_MIN >>> 16) 0xFF),
    initByte (Int.land (c.X_AXIS_LOG_MIN >>> 24) 0xFF),
    0x27, initByte (Int.land c.X_AXIS_LOG_MAX 0xFF),  -- LOGICAL_MAXIMUM
    initByte (Int.land (c.X_AXIS_LOG_MAX >>> 8) 0xFF),
    initByte (Int.land (c.X_AXIS_LOG_MAX >>> 16) 0xFF),
    initByte (Int.land (c.X_AXIS_LOG_MAX >>> 24) 0xFF),
    0x35, 0x00,  -- PHYSICAL_MINIMUM (00)
    0x47, initByte (Int.land c.X_AXIS_PHYS_MAX 0xFF),  -- PHYSICAL_MAXIMUM
    initByte (Int.land (c.X_AXIS_PHYS_MAX >>> 8) 0xFF),
    initByte (Int.land (c.X_AXIS_PHYS_MAX >>> 16) 0xFF),
    initByte (Int.land (c.X_AXIS_PHYS_MAX >>> 24) 0xFF),
    0x75, initByte c.X_AXIS_NB_BITS,  -- REPORT_SIZE (AXIS_NB_BITS)
    0x95, 0x01,  -- REPORT_COUNT (1)
    0x81, 0x02,  -- INPUT (Data,Var,Abs)
    0x09, 0x31,  -- USAGE (y)
    0x16, initByte (Int.land c.Y_AXIS_LOG_MIN 0xFF),  -- LOGICAL_MINIMUM
    initByte (Int.land (c.Y_AXIS_LOG_MIN >>> 8) 0xFF),
    0x27, initByte (Int.land c.Y_AXIS_LOG_MAX 0xFF),  -- LOGICAL_MAXIMUM
    initByte (Int.land (c.Y_AXIS_LOG_MAX >>> 8) 0xFF),
    0x00, 0x00,
    0x35, 0x00,  -- PHYSICAL_MINIMUM (00)
    0x47, initByte (Int.land c.Y_AXIS_PHYS_MAX 0xFF),
    initByte (Int.land (c.Y_AXIS_PHYS_MAX >>> 8) 0xFF),
    0x00, 0x00,
    0x75, initByte c.Y_AXIS_NB_BITS,  -- REPORT_SIZE (AXIS_NB_BITS)
    0x95, 0x01,  -- REPORT_COUNT (1)
    0x81, 0x02,  -- INPUT (Data,Var,Abs)
    0x09, 0x32,  -- USAGE (z)
    0x16, initByte (Int.land c.Z_AXIS_LOG_MIN 0xFF),  -- LOGICAL_MINIMUM
    initByte (Int.land (c.Z_AXIS_LOG_MIN >>> 8) 0xFF),
    0x27, initByte (Int.land c.Z_AXIS_LOG_MAX 0xFF),  -- LOGICAL_MAXIMUM
    initByte (Int.land (c.Z_AXIS_LOG_MAX >>> 8) 0xFF),
    0x00, 0x00,
    0x35, 0x00,  -- PHYSICAL_MINIMUM (00)
    0x47, initByte (Int.land c.Z_AXIS_PHYS_MAX 0xFF),
    initByte (Int.land (c.Z_AXIS_PHYS_MAX >>> 8) 0xFF),
    0x00, 0x00,
    0x75, initByte c.Z_AXIS_NB_BITS,  -- REPORT_SIZE (AXIS_NB_BITS)
    0x95, 0x01,  -- REPORT_COUNT (1)
    0x81, 0x02,  -- INPUT (Data,Var,Abs)
    0x09, 0x33,  -- USAGE (rx)
    0x16, initByte (Int.land c.RX_AXIS_LOG_MIN 0xFF),  -- LOGICAL_MINIMUM
    initByte (Int.land (c.RX_AXIS_LOG_MIN >>> 8) 0xFF),
    0x27, initByte (Int.land c.RX_AXIS_LOG_MAX 0xFF),  -- LOGICAL_MAXIMUM
    initByte (Int.land (c.RX_AXIS_LOG_MAX >>> 8) 0xFF),
    0x00, 0x00,
    0x35, 0x00,  -- PHYSICAL_MINIMUM (00)
    0x47, initByte (Int.land c.RX_AXIS_PHYS_MAX 0xFF),
    initByte (Int.land (c.RX_AXIS_PHYS_MAX >>> 8) 0xFF),
    0x00, 0x00,
    0x75, initByte c.RX_AXIS_NB_BITS,  -- REPORT_SIZE (AXIS_NB_BITS)
    0x95, 0x01,  -- REPORT_COUNT (1)
    0x81, 0x02,  -- INPUT (Data,Var,Abs)
    0x09, 0x34,  -- USAGE (ry)
    0x16, initByte (Int.land c.RY_AXIS_LOG_MIN 0xFF),  -- LOGICAL_MINIMUM
    initByte (Int.land (c.RY_AXIS_LOG_MIN >>> 8) 0xFF),
    0x27, initByte (Int.land c.RY_AXIS_LOG_MAX 0xFF),  -- LOGICAL_MAXIMUM
    initByte (Int.land (c.RY_AXIS_LOG_MAX >>> 8) 0xFF),
    0x00, 0x00,
    0x35, 0x00,  -- PHYSICAL_MINIMUM (00)
    0x47, initByte (Int.land c.RY_AXIS_PHYS_MAX 0xFF),
    initByte (Int.land (c.RY_AXIS_PHYS_MAX >>> 8) 0xFF),
    0x00, 0x00,
    0x75, initByte c.RY_AXIS_NB_BITS,  -- REPORT_SIZE (AXIS_NB_BITS)
    0x95, 0x01,  -- REPORT_COUNT (1)
    0x81, 0x02,  -- INPUT (Data,Var,Abs)
    0x09, 0x39,  -- USAGE (HAT SWITCH)
    0x15, 0x01,  -- LOGICAL_MINIMUM (1)
    0x25, 0x08,  -- LOGICAL_MAXIMUM (8)
    0x35, 0x00,  -- PHYSICAL_MINIMUM (0)
    0x46, 0x3B, 0x01,  -- PHYSICAL_MAXIMUM (315)
    0x65, 0x14,  -- UNIT (Eng Rot:Angular Pos)
    0x55, 0x00,  -- UNIT_EXPONENT (0)
    0x75, 0x04,  -- REPORT_SIZE (4)
    0x95, 0x01,  -- REPORT_COUNT (1)
    0x81, 0x02,  -- Input (Data,Var,Abs)
    0x05, 0x09,  -- USAGE_PAGE (Button)
    0x15, 0x00,  -- LOGICAL_MINIMUM (0)
    0x25, 0x01,  -- LOGICAL_MAXIMUM (1)
    0x55, 0x00,  -- UNIT_EXPONENT (0)
    0x65, 0x00,  -- UNIT (None)
    0x19, 0x01,  -- USAGE_MINIMUM (button 1)
    0x29, initByte c.NB_BUTTONS,  -- USAGE_MAXIMUM (button NB_BUTTONS)
    0x75, 0x01,  -- REPORT_SIZE (1)
    0x95, initByte c.NB_BUTTONS,  -- REPORT_COUNT (NB_BUTTONS)
    0x81, 0x02,  -- Input (Data,Var,Abs)
    0x85, 0xF1,  -- REPORT_ID (f1)
    0x09, 0x01,  -- USAGE (Vendor Usage 1)
    0x15, 0x00,  -- LOGICAL_MINIMUM (0)
    0x26, 0xFF, 0x00,  -- LOGICAL_MAXIMUM (255)
    0x95, 0x3F,  -- 0x20,
    0x75, 0x08,  -- REPORT_SIZE (8)
    0x91, 0x82,  -- OUTPUT (Data,Var,Abs,Vol)
    0x85, 0xF2,  -- REPORT_ID (f2)
    0x09, 0x01,  -- USAGE (Vendor Usage 3)
    0x95, 0x3F,  -- 0x20,
    0x75, 0x08,  -- REPORT_SIZE (8)
    0x81, 0x82,  -- INPUT (Data,Var,Abs,Vol) 8
    0xC0,  -- END_COLLECTION
    0x05, 0x0F,  -- USAGE_PAGE (Physical Interface)
    0x09, 0x92,  -- USAGE (PID State Report)
    0xA1, 0x02,  -- COLLECTION (Logical)
    0x85, 0x02,  -- REPORT_ID (02)
    0x09, 0x9F,  -- USAGE (Device Paused)
    0x09, 0xA0,  -- USAGE (Actuators Enabled)
    0x09, 0xA4,  -- USAGE (Safety Switch)
    0x09, 0xA5,  -- USAGE (Actuator Override Switch)
    0x09, 0xA6,  -- USAGE (Actuator Power)
    0x15, 0x00,  -- LOGICAL_MINIMUM (00)
    0x25, 0x01,  -- LOGICAL_MINIMUM (01)
    0x35, 0x00,  -- PHYSICAL_MINIMUM (00)
    0x45, 0x01,  -- PHYSICAL_MAXIMUM (01)
    0x75, 0x01,  -- REPORT_SIZE (01)
    0x95, 0x05,  -- REPORT_COUNT (05)
    0x81, 0x02,  -- INPUT (Data,Var,Abs)
    0x95, 0x03,  -- REPORT_COUNT (03)
    0x81, 0x03,  -- INPUT (Constant,Var,Abs)
    0x09, 0x94,  -- USAGE (Effect Playing)
    0x15, 0x00,  -- LOGICAL_MINIMUM (00)
    0x25, 0x01,  -- LOGICAL_MAXIMUM (01)
    0x35, 0x00,  -- PHYSICAL_MINIMUM (00)
    0x45, 0x01,  -- PHYSICAL_MAXIMUM (01)
    0x75, 0x01,  -- REPORT_SIZE (01)
    0x95, 0x01,  -- REPORT_COUNT (01)
    0x81, 0x02,  -- INPUT (Data,Var,Abs)
    0x09, 0x22,  -- USAGE (Effect Block Index)
    0x15, 0x01,  -- LOGICAL_MINIMUM (01)
    0x25, 0x28,  -- LOGICAL_MAXIMUM (40)
    0x35, 0x01,  -- PHYSICAL_MINIMUM (01)
    0x45, 0x28,  -- PHYSICAL_MAXIMUM (40)
    0x75, 0x07,  -- REPORT_SIZE (07)
    0x95, 0x01,  -- REPORT_COUNT (01)
    0x81, 0x02,  -- INPUT (Data,Var,Abs)
    0xC0,  -- END COLLECTION ()
    0x09, 0x21,  -- USAGE (Set Effect Output Report)
    0xA1, 0x02,  -- COLLECTION (Logical)
    0x85, 0x01,  -- REPORT_ID (01)
    0x09, 0x22,  -- USAGE (Effect Block Index)
    0x15, 0x01,  -- LOGICAL_MINIMUM (01)
    0x25, 0x28,  -- LOGICAL_MAXIMUM (40)
    0x35, 0x01,  -- PHYSICAL_MINIMUM (01)
    0x45, 0x28,  -- PHYSICAL_MAXIMUM (40)
    0x75, 0x08,  -- REPORT_SIZE (08)
    0x95, 0x01,  -- REPORT_COUNT (01)
    0x91, 0x02,  -- OUTPUT (Data,Var,Abs)
    0x09, 0x25,  -- USAGE (Effect type)
    0xA1, 0x02,  -- COLLECTION (Logical)
    0x09, 0x26,  -- USAGE (ET Constant Force)
    0x09, 0x27,  -- USAGE (ET Ramp)
    0x09, 0x30,  -- USAGE (ET Square)
    0x09, 0x31,  -- USAGE (ET Sine)
    0x09, 0x32,  -- USAGE (ET Triangle)
    0x09, 0x33,  -- USAGE (ET Sawtooth Up)
    0x09, 0x34,  -- USAGE (ET Sawtooth Down)
    0x09, 0x40,  -- USAGE (ET Spring)
    0x09, 0x41,  -- USAGE (ET Damper)
    0x09, 0x42,  -- USAGE (ET Inertia)
    0x09, 0x43,  -- USAGE (ET Friction)
    0x25, 0x0B,  -- LOGICAL_MAXIMUM (11)
    0x15, 0x01,  -- LOGICAL_MINIMUM (01)
    0x35, 0x01,  -- PHYSICAL_MINIMUM (01)
    0x45, 0x0B,  -- PHYSICAL_MAXIMUM (11)
    0x75, 0x08,  -- REPORT_SIZE (08)
    0x95, 0x01,  -- REPORT_COUNT (01)
    0x91, 0x00,  -- OUTPUT (Data)
    0xC0,  -- END COLLECTION ()
    0x09, 0x50,  -- USAGE (Duration)
    0x09, 0x54,  -- USAGE (Trigger Repeat Interval)
    0x15, 0x00,  -- LOGICAL_MINIMUM (00)
    0x27, 0xFF, 0xFF, 0x00, 0x00,  -- LOGICAL_MAXIMUM (65535)
    0x35, 0x00,  -- PHYSICAL_MINIMUM (00)
    0x47, 0xFF, 0xFF, 0x00, 0x00,  -- PHYSICAL_MAXIMUM (65535)
    0x66, 0x01, 0x10,  -- UNIT (SI Lin:Time)
    0x55, 0xFD,  -- UNIT_EXPONENT (-3)
    0x75, 0x10,  -- REPORT_SIZE (16)
    0x95, 0x02,  -- REPORT_COUNT (02)
    0x91, 0x02,  -- OUTPUT (Data,Var,Abs)
    0x55, 0x00,  -- UNIT_EXPONENT (00)
    0x66, 0x00, 0x00,  -- UNIT (None)
    0x09, 0x52,  -- USAGE (Gain)
    0x15, 0x00,  -- LOGICAL_MINIMUM (00)
    0x26, 0xFF, 0x7F,  -- LOGICAL_MAXIMUM (32767)
    0x35, 0x00,  -- PHYSICAL_MINIMUM (00)
    0x46, 0xFF, 0x7F,  -- PHYSICAL_MAXIMUM (32767)
    0x75, 0x10,  -- REPORT_SIZE (16)
    0x95, 0x01,  -- REPORT_COUNT (01)
    0x91, 0x02,  -- OUTPUT (Data,Var,Abs)
    0x09, 0x53,  -- USAGE (Trigger Button)
    0x15, 0x01,  -- LOGICAL_MINIMUM (01)
    0x25, 0x08,  -- LOGICAL_MAXIMUM (08)
    0x35, 0x01,  -- PHYSICAL_MINIMUM (01)
    0x45, 0x08,  -- PHYSICAL_MAXIMUM (08)
    0x75, 0x08,  -- REPORT_SIZE (08)
    0x95, 0x01,  -- REPORT_COUNT (01)
    0x91, 0x02,  -- OUTPUT (Data,Var,Abs)
    0x09, 0x55,  -- USAGE (Axes Enable)
    0xA1, 0x02,  -- COLLECTION (Logical)
    0x05, 0x01,  -- USAGE_PAGE (Generic Desktop)
    0x09, 0x30,  -- USAGE (X)
    0x09, 0x31,  -- USAGE (Y)
    0x15, 0x00,  -- LOGICAL_MINIMUM (00)
    0x25, 0x01,  -- LOGICAL_MAXIMUM (01)
    0x75, 0x01,  -- REPORT_SIZE (01)
    0x95, initByte c.NB_FF_AXIS,  -- REPORT_COUNT (NB_FF_AXIS)
    0x91, 0x02,  -- OUTPUT (Data,Var,Abs)
    0xC0,  -- END COLLECTION ()
    0x05, 0x0F,  -- USAGE_PAGE (Physical Interface)
    0x09, 0x56,  -- USAGE (Direction Enable)
    0x95, 0x01,  -- REPORT_COUNT (01)
    0x91, 0x02,  -- OUTPUT (Data,Var,Abs)
    0x95, initByte (0x07 - c.NB_FF_AXIS),
    0x91, 0x03,  -- OUTPUT (Constant,Var,Abs)
    0x09, 0x57,  -- USAGE (Direction)
    0xA1, 0x02,  -- COLLECTION (Logical)
    0x0B, 0x01, 0x00, 0x0A, 0x00,  -- USAGE (Ordinals:Instance 1)
    0x0B, 0x02, 0x00, 0x0A, 0x00,  -- USAGE (Ordinals:Instance 2)
    0x66, 0x14, 0x00,  -- UNIT (Eng Rot:Angular Pos)
    0x55, 0xFE,  -- UNIT_EXPONENT (-2)
    0x15, 0x00,  -- LOGICAL_MINIMUM (00)
    0x26, 0xFF, 0x7F,  -- LOGICAL_MAXIMUM (32767)
    0x35, 0x00,  -- PHYSICAL_MINIMUM (0)
    0x47, 0x9F, 0x8C, 0x00, 0x00,  -- PHYSICAL_MAXIMUM (35999)
    0x75, 0x10,  -- REPORT_SIZE (16)
    0x95, 0x01,  -- REPORT_COUNT (01)
    0x91, 0x02,  -- OUTPUT (Data,Var,Abs)
    0x55, 0x00,  -- UNIT_EXPONENT (00)
    0x66, 0x00, 0x00,  -- UNIT (None)
    0xC0,  -- END COLLECTION ()
    0x05, 0x0F,  -- USAGE_PAGE (Physical Interface)
    0x09, 0xA7,  -- USAGE (Start Delay)
    0x66, 0x01, 0x10,  -- UNIT (SI Lin:Time)
    0x55, 0xFD,  -- UNIT_EXPONENT (-3)
    0x15, 0x00,  -- LOGICAL_MINIMUM (00)
    0x27, 0xFF, 0xFF, 0x00, 0x00,  -- LOGICAL_MAXIMUM (65535)
    0x35, 0x00,  -- PHYSICAL_MINIMUM (00)
    0x47, 0xFF, 0xFF, 0x00, 0x00,  -- PHYSICAL_MAXIMUM (65535)
    0x75, 0x10,  -- REPORT_SIZE (16)
    0x95, 0x01,  -- REPORT_COUNT (01)
    0x91, 0x02,  -- OUTPUT (Data,Var,Abs)
    0x66, 0x00, 0x00,  -- UNIT (None)
    0x55, 0x00,  -- UNIT_EXPONENT (00)
    0xC0,  -- END COLLECTION ()
    0x05, 0x0F,  -- USAGE_PAGE (Physical Interface)
    0x09, 0x5A,  -- USAGE (Set Envelope Report)
    0xA1, 0x02,  -- COLLECTION (Logical)
    0x85, 0x02,  -- REPORT_ID (02)
    0x09, 0x22,  -- USAGE (Effect Block Index)
    0x15, 0x01,  -- LOGICAL_MINIMUM (01)
    0x25, 0x28,  -- LOGICAL_MAXIMUM (40)
    0x35, 0x01,  -- PHYSICAL_MINIMUM (01)
    0x45, 0x28,  -- PHYSICAL_MAXIMUM (40)
    0x75, 0x08,  -- REPORT_SIZE (08)
    0x95, 0x01,  -- REPORT_COUNT (01)
    0x91, 0x02,  -- OUTPUT (Data,Var,Abs)
    0x09, 0x5B,  -- USAGE (Attack Level)
    0x09, 0x5D,  -- USAGE (Fade Level)
    0x15, 0x00,  -- LOGICAL_MINIMUM (00)
    0x26, 0xFF, 0x00,  -- LOGICAL_MAXIMUM (255)
    0x35, 0x00,  -- PHYSICAL_MINIMUM (00)
    0x46, 0xFF, 0x7F,  -- PHYSICAL_MAXIMUM (32767)
    0x75, 0x08,  -- REPORT_SIZE (08)
    0x95, 0x02,  -- REPORT_COUNT (02)
    0x91, 0x02,  -- OUTPUT (Data,Var,Abs)
    0x09, 0x5C,  -- USAGE (Attack Time)
    0x09, 0x5E,  -- USAGE (Fade Time)
    0x66, 0x01, 0x10,  -- UNIT (SI Lin:Time)
    0x55, 0xFD,  -- UNIT_EXPONENT (-3)
    0x26, 0xFF, 0x7F,  -- LOGICAL_MAXIMUM (32767)
    0x46, 0xFF, 0x7F,  -- PHYSICAL_MAXIMUM (32767)
    0x75, 0x10,  -- REPORT_SIZE (16)
    0x95, 0x02,  -- REPORT_COUNT (02)
    0x91, 0x02,  -- OUTPUT (Data,Var,Abs)
    0x66, 0x00, 0x00,  -- UNIT (None)
    0x55, 0x00,  -- UNIT_EXPONENT (00)
    0xC0,  -- END COLLECTION ()
    0x09, 0x5F,  -- USAGE (Set Condition Report)
    0xA1, 0x02,  -- COLLECTION (Logical)
    0x85, 0x03,  -- REPORT_ID (03)
    0x09, 0x22,  -- USAGE (Effect Block Index)
    0x15, 0x01,  -- LOGICAL_MINIMUM (01)
    0x25, 0x28,  -- LOGICAL_MAXIMUM (40)
    0x35, 0x01,  -- PHYSICAL_MINIMUM (01)
    0x45, 0x28,  -- PHYSICAL_MAXIMUM (40)
    0x75, 0x08,  -- REPORT_SIZE (08)
    0x95, 0x01,  -- REPORT_COUNT (01)
    0x91, 0x02,  -- OUTPUT (Data,Var,Abs)
    0x09, 0x23,  -- USAGE (Parameter Block Offset)
    0x15, 0x00,  -- LOGICAL_MINIMUM (00)
    0x25, 0x01,  -- LOGICAL_MAXIMUM (01)
    0x35, 0x00,  -- PHYSICAL_MINIMUM (00)
    0x45, 0x01,  -- PHYSICAL_MAXIMUM (01)
    0x75, 0x04,  -- REPORT_SIZE (04)
    0x95, 0x01,  -- REPORT_COUNT (01)
    0x91, 0x02,  -- OUTPUT (Data,Var,Abs)
    0x09, 0x58,  -- USAGE (Type Specific Block Offset)
    0xA1, 0x02,  -- COLLECTION (Logical)
    0x0B, 0x01, 0x00, 0x0A, 0x00,  -- USAGE (Instance 1)
    0x0B, 0x02, 0x00, 0x0A, 0x00,  -- USAGE (Instance 2)
    0x75, 0x02,  -- REPORT_SIZE (02)
    0x95, 0x02,  -- REPORT_COUNT (02)
    0x91, 0x02,  -- OUTPUT (Data,Var,Abs)
    0xC0,  -- END COLLECTION ()
    0x09, 0x60,  -- USAGE (CP Offset)
    0x16, 0x00, 0x80,  -- LOGICAL_MINIMUM (-32768)
    0x26, 0xFF, 0x7F,  -- LOGICAL_MAXIMUM (32767)
    0x36, 0x00, 0x80,  -- PHYSICAL_MINIMUM (-32768)
    0x46, 0xFF, 0x7F,  -- PHYSICAL_MAXIMUM (32767)
    0x75, 0x10,  -- REPORT_SIZE (16)
    0x95, 0x01,  -- REPORT_COUNT (01)
    0x91, 0x02,  -- OUTPUT (Data,Var,Abs)
    0x09, 0x61,  -- USAGE (Positive Coefficient)
    0x36, 0x00, 0x80,  -- PHYSICAL_MINIMUM (-32768)
    0x46, 0xFF, 0x7F,  -- PHYSICAL_MAXIMUM (32767)
    0x95, 0x01,  -- REPORT_COUNT (01)
    0x91, 0x02,  -- OUTPUT (Data,Var,Abs)
    0x15, 0x00,  -- LOGICAL_MINIMUM (00)
    0x26, 0xFF, 0x7F,  -- LOGICAL_MAXIMUM (32767)
    0x35, 0x00,  -- PHYSICAL_MINIMUM (00)
    0x46, 0xFF, 0x7F,  -- PHYSICAL_MAXIMUM (32767)
    0x09, 0x63,  -- USAGE (Positive Saturation)
    0x75, 0x10,  -- REPORT_SIZE (16)
    0x95, 0x01,  -- REPORT_COUNT (01)
    0x91, 0x02,  -- OUTPUT (Data,Var,Abs)
    0x09, 0x65,  -- USAGE (Dead Band )
    0x15, 0x00,  -- LOGICAL_MINIMUM (00)
    0x26, 0xFF, 0x00,  -- LOGICAL_MAXIMUM (255)
    0x46, 0xFF, 0x7F,  -- PHYSICAL_MAXIMUM (32767)
    0x75, 0x08,  -- REPORT_SIZE (08)
    0x95, 0x01,  -- REPORT_COUNT (01)
    0x91, 0x02,  -- OUTPUT (Data,Var,Abs)
    0xC0,  -- END COLLECTION ()
    0x09, 0x6E,  -- USAGE (Set Periodic Report)
    0xA1, 0x02,  -- COLLECTION (Logical)
    0x85, 0x04,  -- REPORT_ID (04)
    0x09, 0x22,  -- USAGE (Effect Block Index)
    0x15, 0x01,  -- LOGICAL_MINIMUM (01)
    0x25, 0x28,  -- LOGICAL_MAXIMUM (40)
    0x35, 0x01,  -- PHYSICAL_MINIMUM (01)
    0x45, 0x28,  -- PHYSICAL_MAXIMUM (40)
    0x75, 0x08,  -- REPORT_SIZE (08)
    0x95, 0x01,  -- REPORT_COUNT (01)
    0x91, 0x02,  -- OUTPUT (Data,Var,Abs)
    0x09, 0x70,  -- USAGE (Magnitude)
    0x15, 0x00,  -- LOGICAL_MINIMUM (00)
    0x26, 0xFF, 0x7F,  -- LOGICAL_MAXIMUM (32767)
    0x35, 0x00,  -- PHYSICAL_MINIMUM (00)
    0x46, 0xFF, 0x7F,  -- PHYSICAL_MAXIMUM (32767)
    0x75, 0x10,  -- REPORT_SIZE (16)
    0x95, 0x01,  -- REPORT_COUNT (01)
    0x91, 0x02,  -- OUTPUT (Data,Var,Abs)
    0x09, 0x6F,  -- USAGE (Offset)
    0x16, 0x00, 0x80,  -- LOGICAL_MINIMUM (-32768)
    0x26, 0xFF, 0x7F,  -- LOGICAL_MAXIMUM (32737)
    0x36, 0x00, 0x80,  -- PHYSICAL_MINIMUM (-32768)
    0x46, 0xFF, 0x7F,  -- PHYSICAL_MAXIMUM (32767)
    0x95, 0x01,  -- REPORT_COUNT (01)
    0x91, 0x02,  -- OUTPUT (Data,Var,Abs)
    0x09, 0x71,  -- USAGE (Phase)
    0x15, 0x00,  -- LOGICAL_MINIMUM (00)
    0x26, 0xFF, 0x00,  -- LOGICAL_MAXIMUM (255)
    0x35, 0x00,  -- PHYSICAL_MINIMUM (00)
    0x46, 0x67, 0x01,  -- PHYSICAL_MAXIMUM (359)
    0x66, 0x14, 0x00,  -- UNIT (Eng Rot:Angular Pos)
    0x55, 0x00,  -- UNIT_EXPONENT (0)
    0x75, 0x08,  -- REPORT_SIZE (08)
    0x95, 0x01,  -- REPORT_COUNT (01)
    0x91, 0x02,  -- OUTPUT (Data,Var,Abs)
    0x09, 0x72,  -- USAGE (Period)
    0x27, 0xFF, 0xFF, 0x00, 0x00,  -- LOGICAL_MAXIMUM (65535)
    0x47, 0xFF, 0xFF, 0x00, 0x00,  -- PHYSICAL_MAXIMUM (65535)
    0x66, 0x01, 0x10,  -- UNIT (SI Lin:Time)
    0x55, 0xFD,  -- UNIT_EXPONENT (-3)
    0x75, 0x10,  -- REPORT_SIZE (16)
    0x95, 0x01,  -- REPORT_COUNT (01)
    0x91, 0x02,  -- OUTPUT (Data,Var,Abs)
    0x66, 0x00, 0x00,  -- UNIT (None)
    0x55, 0x00,  -- UNIT_EXPONENT (00)
    0xC0,  -- END COLLECTION ()
    0x09, 0x73,  -- USAGE (Set Constant Force Report)
    0xA1, 0x02,  -- COLLECTION (Logical)
    0x85, 0x05,  -- REPORT_ID (05)
    0x09, 0x22,  -- USAGE (Effect Block Index)
    0x15, 0x01,  -- LOGICAL_MINIMUM (01)
    0x25, 0x28,  -- LOGICAL_MAXIMUM (40)
    0x35, 0x01,  -- PHYSICAL_MINIMUM (01)
    0x45, 0x28,  -- PHYSICAL_MAXIMUM (40)
    0x75, 0x08,  -- REPORT_SIZE (08)
    0x95, 0x01,  -- REPORT_COUNT (01)
    0x91, 0x02,  -- OUTPUT (Data,Var,Abs)
    0x09, 0x70,  -- USAGE (Magnitude)
    0x16, 0x01, 0x80,  -- LOGICAL_MINIMUM (-32767)
    0x26, 0xFF, 0x7F,  -- LOGICAL_MAXIMUM (32767)
    0x36, 0x01, 0x80,  -- PHYSICAL_MINIMUM (-32767)
    0x46, 0xFF, 0x7F,  -- PHYSICAL_MAXIMUM (32767)
    0x75, 0x10,  -- REPORT_SIZE (16)
    0x95, 0x01,  -- REPORT_COUNT (01)
    0x91, 0x02,  -- OUTPUT (Data,Var,Abs)
    0xC0,  -- END COLLECTION ()
    0x09, 0x74,  -- USAGE (Set Ramp Force Report)
    0xA1, 0x02,  -- COLLECTION (Logical)
    0x85, 0x06,  -- REPORT_ID (06)
    0x09, 0x22,  -- USAGE (Effect Block Index)
    0x15, 0x01,  -- LOGICAL_MINIMUM (01)
    0x25, 0x28,  -- LOGICAL_MAXIMUM (40)
    0x35, 0x01,  -- PHYSICAL_MINIMUM (01)
    0x45, 0x28,  -- PHYSICAL_MAXIMUM (40)
    0x75, 0x08,  -- REPORT_SIZE (08)
    0x95, 0x01,  -- REPORT_COUNT (01)
    0x91, 0x02,  -- OUTPUT (Data,Var,Abs)
    0x09, 0x75,  -- USAGE (Ramp Start)
    0x09, 0x76,  -- USAGE (Ramp End)
    0x15, 0x81,  -- LOGICAL_MINIMUM (-127)
    0x25, 0x7F,  -- LOGICAL_MAXIMUM (127)
    0x36, 0x01, 0x80,  -- PHYSICAL_MINIMUM (-32767)
    0x46, 0xFF, 0x7F,  -- PHYSICAL_MAXIMUM (32767)
    0x75, 0x08,  -- REPORT_SIZE (08)
    0x95, 0x02,  -- REPORT_COUNT (02)
    0x91, 0x02,  -- OUTPUT (Data,Var,Abs)
    0xC0,  -- END COLLECTION ()
    0x05, 0x0F,  -- USAGE_PAGE (Physical Interface)
    0x09, 0x77,  -- USAGE (Effect Operation Report)
    0xA1, 0x02,  -- COLLECTION (Logical)
    0x85, 0x0A,  -- REPORT_ID (10)
    0x09, 0x22,  -- USAGE (Effect Block Index)
    0x15, 0x01,  -- LOGICAL_MINIMUM (01)
    0x25, 0x28,  -- LOGICAL_MAXIMUM (40)
    0x35, 0x01,  -- PHYSICAL_MINIMUM (01)
    0x45, 0x28,  -- PHYSICAL_MAXIMUM (40)
    0x75, 0x08,  -- REPORT_SIZE (08)
    0x95, 0x01,  -- REPORT_COUNT (01)
    0x91, 0x02,  -- OUTPUT (Data,Var,Abs)
    0x09, 0x78,  -- USAGE (78)
    0xA1, 0x02,  -- COLLECTION (Logical)
    0x09, 0x79,  -- USAGE (Op Effect Start)
    0x09, 0x7A,  -- USAGE (Op Effect Start Solo)
    0x09, 0x7B,  -- USAGE (Op Effect Stop)
    0x15, 0x01,  -- LOGICAL_MINIMUM (01)
    0x25, 0x03,  -- LOGICAL_MAXIMUM (03)
    0x75, 0x08,  -- REPORT_SIZE (08)
    0x95, 0x01,  -- REPORT_COUNT (01)
    0x91, 0x00,  -- OUTPUT (Data,Ary,Abs)
    0xC0,  -- END COLLECTION ()
    0x09, 0x7C,  -- USAGE (Loop Count)
    0x15, 0x00,  -- LOGICAL_MINIMUM (00)
    0x26, 0xFF, 0x00,  -- LOGICAL_MAXIMUM (255)
    0x35, 0x00,  -- PHYSICAL_MINIMUM (00)
    0x46, 0xFF, 0x00,  -- PHYSICAL_MAXIMUM (255)
    0x91, 0x02,  -- OUTPUT (Data,Var,Abs)
    0xC0,  -- END COLLECTION ()
    0x09, 0x90,  -- USAGE (PID Block Free Report)
    0xA1, 0x02,  -- COLLECTION (Logical)
    0x85, 0x0B,  -- REPORT_ID (11)
    0x09, 0x22,  -- USAGE (Effect Block Index)
    0x15, 0x01,  -- LOGICAL_MINIMUM (01)
    0x25, 0x28,  -- LOGICAL_MAXIMUM (40)
    0x35, 0x01,  -- PHYSICAL_MINIMUM (01)
    0x45, 0x28,  -- PHYSICAL_MAXIMUM (40)
    0x75, 0x08,  -- REPORT_SIZE (08)
    0x95, 0x01,  -- REPORT_COUNT (01)
    0x91, 0x02,  -- OUTPUT (Data,Var,Abs)
    0xC0,  -- END COLLECTION ()
    0x09, 0x96,  -- USAGE (PID Device Control)
    0xA1, 0x02,  -- COLLECTION (Logical)
    0x85, 0x0C,  -- REPORT_ID (12)
    0x09, 0x97,  -- USAGE (DC Enable Actuators)
    0x09, 0x98,  -- USAGE (DC Disable Actuators)
    0x09, 0x99,  -- USAGE (DC Stop All Effects)
    0x09, 0x9A,  -- USAGE (DC Device Reset)
    0x09, 0x9B,  -- USAGE (DC Device Pause)
    0x09, 0x9C,  -- USAGE (DC Device Continue)
    0x15, 0x01,  -- LOGICAL_MINIMUM (01)
    0x25, 0x06,  -- LOGICAL_MAXIMUM (06)
    0x75, 0x08,  -- REPORT_SIZE (08)
    0x95, 0x01,  -- REPORT_COUNT (01)
    0x91, 0x00,  -- OUTPUT (Data)
    0xC0,  -- END COLLECTION ()
    0x09, 0x7D,  -- USAGE (Device Gain Report)
    0xA1, 0x02,  -- COLLECTION (Logical)
    0x85, 0x0D,  -- REPORT_ID (14)
    0x09, 0x7E,  -- USAGE (Device Gain)
    0x15, 0x00,  -- LOGICAL_MINIMUM (00)
    0x26, 0xFF, 0x00,  -- LOGICAL_MAXIMUM (255)
    0x35, 0x00,  -- PHYSICAL_MINIMUM (00)
    0x46, 0x10, 0x27,  -- PHYSICAL_MAXIMUM (10000)
    0x75, 0x08,  -- REPORT_SIZE (08)
    0x95, 0x01,  -- REPORT_COUNT (01)
    0x91, 0x02,  -- OUTPUT (Data,Var,Abs)
    0xC0,  -- END COLLECTION ()
    0x09, 0xAB,  -- USAGE (Create New Effect Report)
    0xA1, 0x02,  -- COLLECTION (Logical)
    0x85, 0x05,  -- REPORT_ID (05)
    0x09, 0x25,  -- USAGE (Effect Type)
    0xA1, 0x02,  -- COLLECTION (Logical)
    0x09, 0x26,  -- USAGE (ET Constant Force)
    0x09, 0x27,  -- USAGE (ET Ramp)
    0x09, 0x30,  -- USAGE (ET Square)
    0x09, 0x31,  -- USAGE (ET Sine)
    0x09, 0x32,  -- USAGE (ET Triangle)
    0x09, 0x33,  -- USAGE (ET Sawtooth Up)
    0x09, 0x34,  -- USAGE (ET Sawtooth Down)
    0x09, 0x40,  -- USAGE (ET Spring)
    0x09, 0x41,  -- USAGE (ET Damper)
    0x09, 0x42,  -- USAGE (ET Inertia)
    0x09, 0x43,  -- USAGE (ET Friction)
    0x15, 0x01,  -- LOGICAL_MINIMUM (01)
    0x25, 0x0B,  -- LOGICAL_MAXIMUM (11)
    0x35, 0x01,  -- PHYSICAL_MINIMUM (01)
    0x45, 0x0B,  -- PHYSICAL_MAXIMUM (11)
    0x75, 0x08,  -- REPORT_SIZE (08)
    0x95, 0x01,  -- REPORT_COUNT (01)
    0xB1, 0x00,  -- FEATURE (Data)
    0xC0,  -- END COLLECTION ()
    0x05, 0x01,  -- USAGE_PAGE (Generic Desktop)
    0x09, 0x3B,  -- USAGE (Byte Count)
    0x15, 0x00,  -- LOGICAL_MINIMUM (00)
    0x26, 0xFF, 0x01,  -- LOGICAL_MAXIMUM (511)
    0x35, 0x00,  -- PHYSICAL_MINIMUM (00)
    0x46, 0xFF, 0x01,  -- PHYSICAL_MAXIMUM (511)
    0x75, 0x0A,  -- REPORT_SIZE (10)
    0x95, 0x01,  -- REPORT_COUNT (01)
    0xB1, 0x02,  -- FEATURE (Data,Var,Abs)
    0x75, 0x06,  -- REPORT_SIZE (06)
    0xB1, 0x01,  -- FEATURE (Constant,Ary,Abs)
    0xC0,  -- END COLLECTION ()
    0x05, 0x0F,  -- USAGE_PAGE (Physical Interface)
    0x09, 0x89,  -- USAGE (PID Block Load Report)
    0xA1, 0x02,  -- COLLECTION (Logical)
    0x85, 0x06,  -- REPORT_ID (06)
    0x09, 0x22,  -- USAGE (Effect Block Index)
    0x25, 0x28,  -- LOGICAL_MAXIMUM (40)
    0x15, 0x01,  -- LOGICAL_MINIMUM (01)
    0x35, 0x01,  -- PHYSICAL_MINIMUM (01)
    0x45, 0x28,  -- PHYSICAL_MAXIMUM (40)
    0x75, 0x08,  -- REPORT_SIZE (08)
    0x95, 0x01,  -- REPORT_COUNT (01)
    0xB1, 0x02,  -- FEATURE (Data,Var,Abs)
    0x09, 0x8B,  -- USAGE (Block Load Status)
    0xA1, 0x02,  -- COLLECTION (Logical)
    0x09, 0x8C,  -- USAGE (Block Load Success)
    0x09, 0x8D,  -- USAGE (Block Load Full)
    0x09, 0x8E,  -- USAGE (Block Load Error)
    0x25, 0x03,  -- LOGICAL_MAXIMUM (03)
    0x15, 0x01,  -- LOGICAL_MINIMUM (01)
    0x35, 0x01,  -- PHYSICAL_MINIMUM (01)
    0x45, 0x03,  -- PHYSICAL_MAXIMUM (03)
    0x75, 0x08,  -- REPORT_SIZE (08)
    0x95, 0x01,  -- REPORT_COUNT (01)
    0xB1, 0x00,  -- FEATURE (Data)
    0xC0,  -- END COLLECTION ()
    0x09, 0xAC,  -- USAGE (RAM Pool Available)
    0x15, 0x00,  -- LOGICAL_MINIMUM (00)
    0x27, 0xFF, 0xFF, 0x00, 0x00,  -- LOGICAL_MAXIMUM (65535)
    0x35, 0x00,  -- PHYSICAL_MINIMUM (00)
    0x47, 0xFF, 0xFF, 0x00, 0x00,  -- PHYSICAL_MAXIMUM (65535)
    0x75, 0x10,  -- REPORT_SIZE (16)
    0x95, 0x01,  -- REPORT_COUNT (01)
    0xB1, 0x00,  -- FEATURE (Data)
    0xC0,  -- END COLLECTION ()
    0x09, 0x7F,  -- USAGE (PID Pool Report)
    0xA1, 0x02,  -- COLLECTION (Logical)
    0x85, 0x07,  -- REPORT_ID (07)
    0x09, 0x80,  -- USAGE (RAM Pool Size)
    0x75, 0x10,  -- REPORT_SIZE (16)
    0x95, 0x01,  -- REPORT_COUNT (01)
    0x15, 0x00,  -- LOGICAL_MINIMUM (00)
    0x27, 0xFF, 0xFF, 0x00, 0x00,  -- LOGICAL_MAXIMUM (65535)
    0x35, 0x00,  -- PHYSICAL_MINIMUM (00)
    0x47, 0xFF, 0xFF, 0x00, 0x00,  -- PHYSICAL_MAXIMUM (65535)
    0xB1, 0x02,  -- FEATURE (Data,Var,Abs)
    0x09, 0x83,  -- USAGE (Simultaneous Effects Max)
    0x26, 0xFF, 0x00,  -- LOGICAL_MAXIMUM (255)
    0x46, 0xFF, 0x00,  -- PHYSICAL_MAXIMUM (255)
    0x75, 0x08,  -- REPORT_SIZE (08)
    0x95, 0x01,  -- REPORT_COUNT (01)
    0xB1, 0x02,  -- FEATURE (Data,Var,Abs)
    0x09, 0xA9,  -- USAGE (Device Managed Pool)
    0x09, 0xAA,  -- USAGE (Shared Parameter Blocks)
    0x75, 0x01,  -- REPORT_SIZE (01)
    0x95, 0x02,  -- REPORT_COUNT (02)
    0x15, 0x00,  -- LOGICAL_MINIMUM (00)
    0x25, 0x01,  -- LOGICAL_MAXIMUM (01)
    0x35, 0x00,  -- PHYSICAL_MINIMUM (00)
    0x45, 0x01,  -- PHYSICAL_MAXIMUM (01)
    0xB1, 0x02,  -- FEATURE (Data,Var,Abs)
    0x75, 0x06,  -- REPORT_SIZE (06)
    0x95, 0x01,  -- REPORT_COUNT (01)
    0xB1, 0x03,  -- FEATURE ( Cnst,Var,Abs)
    0xC0,  -- END COLLECTION ()
    0xC0 ]  -- END COLLECTION ()

/-- The callback `tud_hid_descriptor_report_cb(instance)`: it returns the
table and touches no state. -/
def tud_hid_descriptor_report_cb (c : ConfigHID) : List Nat :=
  hid_report_descriptor c

/-- A configuration with the bit widths of the reference configuration (axes
of 16, 16, 12, 12 and 12 bits, 24 buttons), for concrete evaluations.  The
ranges and the number of force feedback axes are sample values. -/
def sampleConfig : ConfigHID :=
  { X_AXIS_NB_BITS := 16, X_AXIS_LOG_MIN := 0, X_AXIS_LOG_MAX := 65535, X_AXIS_PHYS_MAX := 65535,
    Y_AXIS_NB_BITS := 16, Y_AXIS_LOG_MIN := 0, Y_AXIS_LOG_MAX := 65535, Y_AXIS_PHYS_MAX := 65535,
    Z_AXIS_NB_BITS := 12, Z_AXIS_LOG_MIN := 0, Z_AXIS_LOG_MAX := 4095, Z_AXIS_PHYS_MAX := 4095,
    RX_AXIS_NB_BITS := 12, RX_AXIS_LOG_MIN := 0, RX_AXIS_LOG_MAX := 4095, RX_AXIS_PHYS_MAX := 4095,
    RY_AXIS_NB_BITS := 12, RY_AXIS_LOG_MIN := 0, RY_AXIS_LOG_MAX := 4095, RY_AXIS_PHYS_MAX := 4095,
    NB_BUTTONS := 24, NB_FF_AXIS := 1 }

/-! ## Reading of a report descriptor (specification side, HID 1.11 section 6.2.2)

The table is a sequence of short items: a one-byte prefix (bits 0..1 the number
of data bytes, 3 standing for 4; bits 2..7 type and tag) followed by the data
bytes, little-endian.  Main items Input (0x80), Output (0x90) and Feature
(0xB0) declare `REPORT_COUNT` fields of `REPORT_SIZE` bits each in the report
`REPORT_ID`, with the ranges and usages in force. -/

/-- Number of data bytes of a short item, from its prefix. -/
def itemDataLen (p : Nat) : Nat :=
  match p % 4 with
  | 0 => 0
  | 1 => 1
  | 2 => 2
  | _ => 4

/-- A short item: its prefix with the size bits cleared, and its data bytes. -/
structure HidItem where
  tag : Nat
  data : List Nat
  deriving DecidableEq, Repr

/-- The items of a descriptor; `fuel` bounds the number of items. -/
def hidItems : Nat → List Nat → List HidItem
  | 0, _ => []
  | _, [] => []
  | fuel + 1, p :: rest =>
    { tag := p / 4 * 4, data := rest.take (itemDataLen p) }
      :: hidItems fuel (rest.drop (itemDataLen p))

/-- Value of the data bytes of an item read as a signed integer. -/
def signedValue (data : List Nat) : Int :=
  if 2 * leValue data ≥ 256 ^ data.length ∧ data ≠ [] then
    (leValue data : Int) - 256 ^ data.length
  else (leValue data : Int)

/-- The item state a main item reads: report id, size and count, logical and
physical range, and the usages declared since the last main item. -/
structure HidState where
  reportId : Nat
  reportSize : Nat
  reportCount : Nat
  logicalMin : Int
  logicalMax : Int
  physicalMin : Int
  physicalMax : Int
  usages : List Nat
  deriving DecidableEq, Repr

/-- What a main item declares: `kind` is 0x80 (Input), 0x90 (Output) or
0xB0 (Feature), `flags` its data (bit 0 set: constant, that is padding). -/
structure HidField where
  kind : Nat
  flags : Nat
  reportId : Nat
  reportSize : Nat
  reportCount : Nat
  logicalMin : Int
  logicalMax : Int
  physicalMin : Int
  physicalMax : Int
  usages : List Nat
  deriving DecidableEq, Repr

/-- The main items of a list of items, each with the state in force. -/
def hidFields : List HidItem → HidState → List HidField
  | [], _ => []
  | it :: its, st =>
    if it.tag = 0x84 then hidFields its { st with reportId := leValue it.data }
    else if it.tag = 0x74 then hidFields its { st with reportSize := leValue it.data }
    else if it.tag = 0x94 then hidFields its { st with reportCount := leValue it.data }
    else if it.tag = 0x14 then hidFields its { st with logicalMin := signedValue it.data }
    else if it.tag = 0x24 then hidFields its { st with logicalMax := signedValue it.data }
    else if it.tag = 0x34 then hidFields its { st with physicalMin := signedValue it.data }
    else if it.tag = 0x44 then hidFields its { st with physicalMax := signedValue it.data }
    else if it.tag = 0x08 then hidFields its { st with usages := st.usages ++ [leValue it.data] }
    else if it.tag = 0x80 ∨ it.tag = 0x90 ∨ it.tag = 0xB0 then
      { kind := it.tag, flags := leValue it.data, reportId := st.reportId,
        reportSize := st.reportSize, reportCount := st.reportCount,
        logicalMin := st.logicalMin, logicalMax := st.logicalMax,
        physicalMin := st.physicalMin, physicalMax := st.physicalMax, usages := st.usages }
        :: hidFields its { st with usages := [] }
    else if it.tag = 0xA0 ∨ it.tag = 0xC0 then hidFields its { st with usages := [] }
    else hidFields its st

/-- All main items of a descriptor, in order. -/
def reportFields (d : List Nat) : List HidField :=
  hidFields (hidItems d.length d) ⟨0, 0, 0, 0, 0, 0, 0, []⟩

/-- The main items of kind `kind` that belong to the report `id`, in order. -/
def fieldsOf (kind id : Nat) (d : List Nat) : List HidField :=
  (reportFields d).filter (fun f => f.kind = kind ∧ f.reportId = id)

/-- Width in bits of what a main item declares. -/
def HidField.width (f : HidField) : Nat := f.reportSize * f.reportCount

/-- Bit offsets of consecutive fields of the given widths, the first at `off`. -/
def fieldOffsets (off : Nat) : List Nat → List Nat
  | [] => []
  | w :: ws => off :: fieldOffsets (off + w) ws

/-- The report ids for which the descriptor declares an Output item, in order
of first appearance. -/
def outputReportIds (d : List Nat) : List Nat :=
  (((reportFields d).filter (fun f => f.kind = 0x90)).map (fun f => f.reportId)).eraseDups

/-- The items of the table, written out: what `hidItems` reads from
`hid_report_descriptor` (theorem `hidItems_descriptor`). -/
def descriptorItems (c : ConfigHID) : List HidItem :=
  [
    HidItem.mk 0x04 [0x01], HidItem.mk 0x08 [0x04], HidItem.mk 0xA0 [0x01],
    HidItem.mk 0x84 [0x04], HidItem.mk 0x08 [0x01], HidItem.mk 0xA0 [0x00],
    HidItem.mk 0x08 [0x30],
    HidItem.mk 0x14
      [initByte (Int.land c.X_AXIS_LOG_MIN 0xFF),
       initByte (Int.land (c.X_AXIS_LOG_MIN >>> 8) 0xFF),
       initByte (Int.land (c.X_AXIS_LOG_MIN >>> 16) 0xFF),
       initByte (Int.land (c.X_AXIS_LOG_MIN >>> 24) 0xFF)],
    HidItem.mk 0x24
      [initByte (Int.land c.X_AXIS_LOG_MAX 0xFF),
       initByte (Int.land (c.X_AXIS_LOG_MAX >>> 8) 0xFF),
       initByte (Int.land (c.X_AXIS_LOG_MAX >>> 16) 0xFF),
       initByte (Int.land (c.X_AXIS_LOG_MAX >>> 24) 0xFF)],
    HidItem.mk 0x34 [0x00],
    HidItem.mk 0x44
      [initByte (Int.land c.X_AXIS_PHYS_MAX 0xFF),
       initByte (Int.land (c.X_AXIS_PHYS_MAX >>> 8) 0xFF),
       initByte (Int.land (c.X_AXIS_PHYS_MAX >>> 16) 0xFF),
       initByte (Int.land (c.X_AXIS_PHYS_MAX >>> 24) 0xFF)],
    HidItem.mk 0x74 [initByte c.X_AXIS_NB_BITS], HidItem.mk 0x94 [0x01], HidItem.mk 0x80 [0x02],
    HidItem.mk 0x08 [0x31],
    HidItem.mk 0x14
      [initByte (Int.land c.Y_AXIS_LOG_MIN 0xFF),
       initByte (Int.land (c.Y_AXIS_LOG_MIN >>> 8) 0xFF)],
    HidItem.mk 0x24
      [initByte (Int.land c.Y_AXIS_LOG_MAX 0xFF),
       initByte (Int.land (c.Y_AXIS_LOG_MAX >>> 8) 0xFF),
       0x00,
       0x00],
    HidItem.mk 0x34 [0x00],
    HidItem.mk 0x44
      [initByte (Int.land c.Y_AXIS_PHYS_MAX 0xFF),
       initByte (Int.land (c.Y_AXIS_PHYS_MAX >>> 8) 0xFF),
       0x00,
       0x00],
    HidItem.mk 0x74 [initByte c.Y_AXIS_NB_BITS], HidItem.mk 0x94 [0x01], HidItem.mk 0x80 [0x02],
    HidItem.mk 0x08 [0x32],
    HidItem.mk 0x14
      [initByte (Int.land c.Z_AXIS_LOG_MIN 0xFF),
       initByte (Int.land (c.Z_AXIS_LOG_MIN >>> 8) 0xFF)],
    HidItem.mk 0x24
      [initByte (Int.land c.Z_AXIS_LOG_MAX 0xFF),
       initByte (Int.land (c.Z_AXIS_LOG_MAX >>> 8) 0xFF),
       0x00,
       0x00],
    HidItem.mk 0x34 [0x00],
    HidItem.mk 0x44
      [initByte (Int.land c.Z_AXIS_PHYS_MAX 0xFF),
       initByte (Int.land (c.Z_AXIS_PHYS_MAX >>> 8) 0xFF),
       0x00,
       0x00],
    HidItem.mk 0x74 [initByte c.Z_AXIS_NB_BITS], HidItem.mk 0x94 [0x01], HidItem.mk 0x80 [0x02],
    HidItem.mk 0x08 [0x33],
    HidItem.mk 0x14
      [initByte (Int.land c.RX_AXIS_LOG_MIN 0xFF),
       initByte (Int.land (c.RX_AXIS_LOG_MIN >>> 8) 0xFF)],
    HidItem.mk 0x24
      [initByte (Int.land c.RX_AXIS_LOG_MAX 0xFF),
       initByte (Int.land (c.RX_AXIS_LOG_MAX >>> 8) 0xFF),
       0x00,
       0x00],
    HidItem.mk 0x34 [0x00],
    HidItem.mk 0x44
      [initByte (Int.land c.RX_AXIS_PHYS_MAX 0xFF),
       initByte (Int.land (c.RX_AXIS_PHYS_MAX >>> 8) 0xFF),
       0x00,
       0x00],
    HidItem.mk 0x74 [initByte c.RX_AXIS_NB_BITS], HidItem.mk 0x94 [0x01], HidItem.mk 0x80 [0x02],
    HidItem.mk 0x08 [0x34],
    HidItem.mk 0x14
      [initByte (Int.land c.RY_AXIS_LOG_MIN 0xFF),
       initByte (Int.land (c.RY_AXIS_LOG_MIN >>> 8) 0xFF)],
    HidItem.mk 0x24
      [initByte (Int.land c.RY_AXIS_LOG_MAX 0xFF),
       initByte (Int.land (c.RY_AXIS_LOG_MAX >>> 8) 0xFF),
       0x00,
       0x00],
    HidItem.mk 0x34 [0x00],
    HidItem.mk 0x44
      [initByte (Int.land c.RY_AXIS_PHYS_MAX 0xFF),
       initByte (Int.land (c.RY_AXIS_PHYS_MAX >>> 8) 0xFF),
       0x00,
       0x00],
    HidItem.mk 0x74 [initByte c.RY_AXIS_NB_BITS], HidItem.mk 0x94 [0x01], HidItem.mk 0x80 [0x02],
    HidItem.mk 0x08 [0x39], HidItem.mk 0x14 [0x01], HidItem.mk 0x24 [0x08],
    HidItem.mk 0x34 [0x00], HidItem.mk 0x44 [0x3B, 0x01], HidItem.mk 0x64 [0x14],
    HidItem.mk 0x54 [0x00], HidItem.mk 0x74 [0x04], HidItem.mk 0x94 [0x01],
    HidItem.mk 0x80 [0x02], HidItem.mk 0x04 [0x09], HidItem.mk 0x14 [0x00],
    HidItem.mk 0x24 [0x01], HidItem.mk 0x54 [0x00], HidItem.mk 0x64 [0x00],
    HidItem.mk 0x18 [0x01], HidItem.mk 0x28 [initByte c.NB_BUTTONS], HidItem.mk 0x74 [0x01],
    HidItem.mk 0x94 [initByte c.NB_BUTTONS], HidItem.mk 0x80 [0x02], HidItem.mk 0x84 [0xF1],
    HidItem.mk 0x08 [0x01], HidItem.mk 0x14 [0x00], HidItem.mk 0x24 [0xFF, 0x00],
    HidItem.mk 0x94 [0x3F], HidItem.mk 0x74 [0x08], HidItem.mk 0x90 [0x82],
    HidItem.mk 0x84 [0xF2], HidItem.mk 0x08 [0x01], HidItem.mk 0x94 [0x3F],
    HidItem.mk 0x74 [0x08], HidItem.mk 0x80 [0x82], HidItem.mk 0xC0 [], HidItem.mk 0x04 [0x0F],
    HidItem.mk 0x08 [0x92], HidItem.mk 0xA0 [0x02], HidItem.mk 0x84 [0x02],
    HidItem.mk 0x08 [0x9F], HidItem.mk 0x08 [0xA0], HidItem.mk 0x08 [0xA4],
    HidItem.mk 0x08 [0xA5], HidItem.mk 0x08 [0xA6], HidItem.mk 0x14 [0x00],
    HidItem.mk 0x24 [0x01], HidItem.mk 0x34 [0x00], HidItem.mk 0x44 [0x01],
    HidItem.mk 0x74 [0x01], HidItem.mk 0x94 [0x05], HidItem.mk 0x80 [0x02],
    HidItem.mk 0x94 [0x03], HidItem.mk 0x80 [0x03], HidItem.mk 0x08 [0x94],
    HidItem.mk 0x14 [0x00], HidItem.mk 0x24 [0x01], HidItem.mk 0x34 [0x00],
    HidItem.mk 0x44 [0x01], HidItem.mk 0x74 [0x01], HidItem.mk 0x94 [0x01],
    HidItem.mk 0x80 [0x02], HidItem.mk 0x08 [0x22], HidItem.mk 0x14 [0x01],
    HidItem.mk 0x24 [0x28], HidItem.mk 0x34 [0x01], HidItem.mk 0x44 [0x28],
    HidItem.mk 0x74 [0x07], HidItem.mk 0x94 [0x01], HidItem.mk 0x80 [0x02], HidItem.mk 0xC0 [],
    HidItem.mk 0x08 [0x21], HidItem.mk 0xA0 [0x02], HidItem.mk 0x84 [0x01],
    HidItem.mk 0x08 [0x22], HidItem.mk 0x14 [0x01], HidItem.mk 0x24 [0x28],
    HidItem.mk 0x34 [0x01], HidItem.mk 0x44 [0x28], HidItem.mk 0x74 [0x08],
    HidItem.mk 0x94 [0x01], HidItem.mk 0x90 [0x02], HidItem.mk 0x08 [0x25],
    HidItem.mk 0xA0 [0x02], HidItem.mk 0x08 [0x26], HidItem.mk 0x08 [0x27],
    HidItem.mk 0x08 [0x30], HidItem.mk 0x08 [0x31], HidItem.mk 0x08 [0x32],
    HidItem.mk 0x08 [0x33], HidItem.mk 0x08 [0x34], HidItem.mk 0x08 [0x40],
    HidItem.mk 0x08 [0x41], HidItem.mk 0x08 [0x42], HidItem.mk 0x08 [0x43],
    HidItem.mk 0x24 [0x0B], HidItem.mk 0x14 [0x01], HidItem.mk 0x34 [0x01],
    HidItem.mk 0x44 [0x0B], HidItem.mk 0x74 [0x08], HidItem.mk 0x94 [0x01],
    HidItem.mk 0x90 [0x00], HidItem.mk 0xC0 [], HidItem.mk 0x08 [0x50], HidItem.mk 0x08 [0x54],
    HidItem.mk 0x14 [0x00], HidItem.mk 0x24 [0xFF, 0xFF, 0x00, 0x00], HidItem.mk 0x34 [0x00],
    HidItem.mk 0x44 [0xFF, 0xFF, 0x00, 0x00], HidItem.mk 0x64 [0x01, 0x10],
    HidItem.mk 0x54 [0xFD], HidItem.mk 0x74 [0x10], HidItem.mk 0x94 [0x02],
    HidItem.mk 0x90 [0x02], HidItem.mk 0x54 [0x00], HidItem.mk 0x64 [0x00, 0x00],
    HidItem.mk 0x08 [0x52], HidItem.mk 0x14 [0x00], HidItem.mk 0x24 [0xFF, 0x7F],
    HidItem.mk 0x34 [0x00], HidItem.mk 0x44 [0xFF, 0x7F], HidItem.mk 0x74 [0x10],
    HidItem.mk 0x94 [0x01], HidItem.mk 0x90 [0x02], HidItem.mk 0x08 [0x53],
    HidItem.mk 0x14 [0x01], HidItem.mk 0x24 [0x08], HidItem.mk 0x34 [0x01],
    HidItem.mk 0x44 [0x08], HidItem.mk 0x74 [0x08], HidItem.mk 0x94 [0x01],
    HidItem.mk 0x90 [0x02], HidItem.mk 0x08 [0x55], HidItem.mk 0xA0 [0x02],
    HidItem.mk 0x04 [0x01], HidItem.mk 0x08 [0x30], HidItem.mk 0x08 [0x31],
    HidItem.mk 0x14 [0x00], HidItem.mk 0x24 [0x01], HidItem.mk 0x74 [0x01],
    HidItem.mk 0x94 [initByte c.NB_FF_AXIS], HidItem.mk 0x90 [0x02], HidItem.mk 0xC0 [],
    HidItem.mk 0x04 [0x0F], HidItem.mk 0x08 [0x56], HidItem.mk 0x94 [0x01],
    HidItem.mk 0x90 [0x02], HidItem.mk 0x94 [initByte (0x07 - c.NB_FF_AXIS)],
    HidItem.mk 0x90 [0x03], HidItem.mk 0x08 [0x57], HidItem.mk 0xA0 [0x02],
    HidItem.mk 0x08 [0x01, 0x00, 0x0A, 0x00], HidItem.mk 0x08 [0x02, 0x00, 0x0A, 0x00],
    HidItem.mk 0x64 [0x14, 0x00], HidItem.mk 0x54 [0xFE], HidItem.mk 0x14 [0x00],
    HidItem.mk 0x24 [0xFF, 0x7F], HidItem.mk 0x34 [0x00],
    HidItem.mk 0x44 [0x9F, 0x8C, 0x00, 0x00], HidItem.mk 0x74 [0x10], HidItem.mk 0x94 [0x01],
    HidItem.mk 0x90 [0x02], HidItem.mk 0x54 [0x00], HidItem.mk 0x64 [0x00, 0x00],
    HidItem.mk 0xC0 [], HidItem.mk 0x04 [0x0F], HidItem.mk 0x08 [0xA7],
    HidItem.mk 0x64 [0x01, 0x10], HidItem.mk 0x54 [0xFD], HidItem.mk 0x14 [0x00],
    HidItem.mk 0x24 [0xFF, 0xFF, 0x00, 0x00], HidItem.mk 0x34 [0x00],
    HidItem.mk 0x44 [0xFF, 0xFF, 0x00, 0x00], HidItem.mk 0x74 [0x10], HidItem.mk 0x94 [0x01],
    HidItem.mk 0x90 [0x02], HidItem.mk 0x64 [0x00, 0x00], HidItem.mk 0x54 [0x00],
    HidItem.mk 0xC0 [], HidItem.mk 0x04 [0x0F], HidItem.mk 0x08 [0x5A], HidItem.mk 0xA0 [0x02],
    HidItem.mk 0x84 [0x02], HidItem.mk 0x08 [0x22], HidItem.mk 0x14 [0x01],
    HidItem.mk 0x24 [0x28], HidItem.mk 0x34 [0x01], HidItem.mk 0x44 [0x28],
    HidItem.mk 0x74 [0x08], HidItem.mk 0x94 [0x01], HidItem.mk 0x90 [0x02],
    HidItem.mk 0x08 [0x5B], HidItem.mk 0x08 [0x5D], HidItem.mk 0x14 [0x00],
    HidItem.mk 0x24 [0xFF, 0x00], HidItem.mk 0x34 [0x00], HidItem.mk 0x44 [0xFF, 0x7F],
    HidItem.mk 0x74 [0x08], HidItem.mk 0x94 [0x02], HidItem.mk 0x90 [0x02],
    HidItem.mk 0x08 [0x5C], HidItem.mk 0x08 [0x5E], HidItem.mk 0x64 [0x01, 0x10],
    HidItem.mk 0x54 [0xFD], HidItem.mk 0x24 [0xFF, 0x7F], HidItem.mk 0x44 [0xFF, 0x7F],
    HidItem.mk 0x74 [0x10], HidItem.mk 0x94 [0x02], HidItem.mk 0x90 [0x02],
    HidItem.mk 0x64 [0x00, 0x00], HidItem.mk 0x54 [0x00], HidItem.mk 0xC0 [],
    HidItem.mk 0x08 [0x5F], HidItem.mk 0xA0 [0x02], HidItem.mk 0x84 [0x03],
    HidItem.mk 0x08 [0x22], HidItem.mk 0x14 [0x01], HidItem.mk 0x24 [0x28],
    HidItem.mk 0x34 [0x01], HidItem.mk 0x44 [0x28], HidItem.mk 0x74 [0x08],
    HidItem.mk 0x94 [0x01], HidItem.mk 0x90 [0x02], HidItem.mk 0x08 [0x23],
    HidItem.mk 0x14 [0x00], HidItem.mk 0x24 [0x01], HidItem.mk 0x34 [0x00],
    HidItem.mk 0x44 [0x01], HidItem.mk 0x74 [0x04], HidItem.mk 0x94 [0x01],
    HidItem.mk 0x90 [0x02], HidItem.mk 0x08 [0x58], HidItem.mk 0xA0 [0x02],
    HidItem.mk 0x08 [0x01, 0x00, 0x0A, 0x00], HidItem.mk 0x08 [0x02, 0x00, 0x0A, 0x00],
    HidItem.mk 0x74 [0x02], HidItem.mk 0x94 [0x02], HidItem.mk 0x90 [0x02], HidItem.mk 0xC0 [],
    HidItem.mk 0x08 [0x60], HidItem.mk 0x14 [0x00, 0x80], HidItem.mk 0x24 [0xFF, 0x7F],
    HidItem.mk 0x34 [0x00, 0x80], HidItem.mk 0x44 [0xFF, 0x7F], HidItem.mk 0x74 [0x10],
    HidItem.mk 0x94 [0x01], HidItem.mk 0x90 [0x02], HidItem.mk 0x08 [0x61],
    HidItem.mk 0x34 [0x00, 0x80], HidItem.mk 0x44 [0xFF, 0x7F], HidItem.mk 0x94 [0x01],
    HidItem.mk 0x90 [0x02], HidItem.mk 0x14 [0x00], HidItem.mk 0x24 [0xFF, 0x7F],
    HidItem.mk 0x34 [0x00], HidItem.mk 0x44 [0xFF, 0x7F], HidItem.mk 0x08 [0x63],
    HidItem.mk 0x74 [0x10], HidItem.mk 0x94 [0x01], HidItem.mk 0x90 [0x02],
    HidItem.mk 0x08 [0x65], HidItem.mk 0x14 [0x00], HidItem.mk 0x24 [0xFF, 0x00],
    HidItem.mk 0x44 [0xFF, 0x7F], HidItem.mk 0x74 [0x08], HidItem.mk 0x94 [0x01],
    HidItem.mk 0x90 [0x02], HidItem.mk 0xC0 [], HidItem.mk 0x08 [0x6E], HidItem.mk 0xA0 [0x02],
    HidItem.mk 0x84 [0x04], HidItem.mk 0x08 [0x22], HidItem.mk 0x14 [0x01],
    HidItem.mk 0x24 [0x28], HidItem.mk 0x34 [0x01], HidItem.mk 0x44 [0x28],
    HidItem.mk 0x74 [0x08], HidItem.mk 0x94 [0x01], HidItem.mk 0x90 [0x02],
    HidItem.mk 0x08 [0x70], HidItem.mk 0x14 [0x00], HidItem.mk 0x24 [0xFF, 0x7F],
    HidItem.mk 0x34 [0x00], HidItem.mk 0x44 [0xFF, 0x7F], HidItem.mk 0x74 [0x10],
    HidItem.mk 0x94 [0x01], HidItem.mk 0x90 [0x02], HidItem.mk 0x08 [0x6F],
    HidItem.mk 0x14 [0x00, 0x80], HidItem.mk 0x24 [0xFF, 0x7F], HidItem.mk 0x34 [0x00, 0x80],
    HidItem.mk 0x44 [0xFF, 0x7F], HidItem.mk 0x94 [0x01], HidItem.mk 0x90 [0x02],
    HidItem.mk 0x08 [0x71], HidItem.mk 0x14 [0x00], HidItem.mk 0x24 [0xFF, 0x00],
    HidItem.mk 0x34 [0x00], HidItem.mk 0x44 [0x67, 0x01], HidItem.mk 0x64 [0x14, 0x00],
    HidItem.mk 0x54 [0x00], HidItem.mk 0x74 [0x08], HidItem.mk 0x94 [0x01],
    HidItem.mk 0x90 [0x02], HidItem.mk 0x08 [0x72], HidItem.mk 0x24 [0xFF, 0xFF, 0x00, 0x00],
    HidItem.mk 0x44 [0xFF, 0xFF, 0x00, 0x00], HidItem.mk 0x64 [0x01, 0x10],
    HidItem.mk 0x54 [0xFD], HidItem.mk 0x74 [0x10], HidItem.mk 0x94 [0x01],
    HidItem.mk 0x90 [0x02], HidItem.mk 0x64 [0x00, 0x00], HidItem.mk 0x54 [0x00],
    HidItem.mk 0xC0 [], HidItem.mk 0x08 [0x73], HidItem.mk 0xA0 [0x02], HidItem.mk 0x84 [0x05],
    HidItem.mk 0x08 [0x22], HidItem.mk 0x14 [0x01], HidItem.mk 0x24 [0x28],
    HidItem.mk 0x34 [0x01], HidItem.mk 0x44 [0x28], HidItem.mk 0x74 [0x08],
    HidItem.mk 0x94 [0x01], HidItem.mk 0x90 [0x02], HidItem.mk 0x08 [0x70],
    HidItem.mk 0x14 [0x01, 0x80], HidItem.mk 0x24 [0xFF, 0x7F], HidItem.mk 0x34 [0x01, 0x80],
    HidItem.mk 0x44 [0xFF, 0x7F], HidItem.mk 0x74 [0x10], HidItem.mk 0x94 [0x01],
    HidItem.mk 0x90 [0x02], HidItem.mk 0xC0 [], HidItem.mk 0x08 [0x74], HidItem.mk 0xA0 [0x02],
    HidItem.mk 0x84 [0x06], HidItem.mk 0x08 [0x22], HidItem.mk 0x14 [0x01],
    HidItem.mk 0x24 [0x28], HidItem.mk 0x34 [0x01], HidItem.mk 0x44 [0x28],
    HidItem.mk 0x74 [0x08], HidItem.mk 0x94 [0x01], HidItem.mk 0x90 [0x02],
    HidItem.mk 0x08 [0x75], HidItem.mk 0x08 [0x76], HidItem.mk 0x14 [0x81],
    HidItem.mk 0x24 [0x7F], HidItem.mk 0x34 [0x01, 0x80], HidItem.mk 0x44 [0xFF, 0x7F],
    HidItem.mk 0x74 [0x08], HidItem.mk 0x94 [0x02], HidItem.mk 0x90 [0x02], HidItem.mk 0xC0 [],
    HidItem.mk 0x04 [0x0F], HidItem.mk 0x08 [0x77], HidItem.mk 0xA0 [0x02],
    HidItem.mk 0x84 [0x0A], HidItem.mk 0x08 [0x22], HidItem.mk 0x14 [0x01],
    HidItem.mk 0x24 [0x28], HidItem.mk 0x34 [0x01], HidItem.mk 0x44 [0x28],
    HidItem.mk 0x74 [0x08], HidItem.mk 0x94 [0x01], HidItem.mk 0x90 [0x02],
    HidItem.mk 0x08 [0x78], HidItem.mk 0xA0 [0x02], HidItem.mk 0x08 [0x79],
    HidItem.mk 0x08 [0x7A], HidItem.mk 0x08 [0x7B], HidItem.mk 0x14 [0x01],
    HidItem.mk 0x24 [0x03], HidItem.mk 0x74 [0x08], HidItem.mk 0x94 [0x01],
    HidItem.mk 0x90 [0x00], HidItem.mk 0xC0 [], HidItem.mk 0x08 [0x7C], HidItem.mk 0x14 [0x00],
    HidItem.mk 0x24 [0xFF, 0x00], HidItem.mk 0x34 [0x00], HidItem.mk 0x44 [0xFF, 0x00],
    HidItem.mk 0x90 [0x02], HidItem.mk 0xC0 [], HidItem.mk 0x08 [0x90], HidItem.mk 0xA0 [0x02],
    HidItem.mk 0x84 [0x0B], HidItem.mk 0x08 [0x22], HidItem.mk 0x14 [0x01],
    HidItem.mk 0x24 [0x28], HidItem.mk 0x34 [0x01], HidItem.mk 0x44 [0x28],
    HidItem.mk 0x74 [0x08], HidItem.mk 0x94 [0x01], HidItem.mk 0x90 [0x02], HidItem.mk 0xC0 [],
    HidItem.mk 0x08 [0x96], HidItem.mk 0xA0 [0x02], HidItem.mk 0x84 [0x0C],
    HidItem.mk 0x08 [0x97], HidItem.mk 0x08 [0x98], HidItem.mk 0x08 [0x99],
    HidItem.mk 0x08 [0x9A], HidItem.mk 0x08 [0x9B], HidItem.mk 0x08 [0x9C],
    HidItem.mk 0x14 [0x01], HidItem.mk 0x24 [0x06], HidItem.mk 0x74 [0x08],
    HidItem.mk 0x94 [0x01], HidItem.mk 0x90 [0x00], HidItem.mk 0xC0 [], HidItem.mk 0x08 [0x7D],
    HidItem.mk 0xA0 [0x02], HidItem.mk 0x84 [0x0D], HidItem.mk 0x08 [0x7E],
    HidItem.mk 0x14 [0x00], HidItem.mk 0x24 [0xFF, 0x00], HidItem.mk 0x34 [0x00],
    HidItem.mk 0x44 [0x10, 0x27], HidItem.mk 0x74 [0x08], HidItem.mk 0x94 [0x01],
    HidItem.mk 0x90 [0x02], HidItem.mk 0xC0 [], HidItem.mk 0x08 [0xAB], HidItem.mk 0xA0 [0x02],
    HidItem.mk 0x84 [0x05], HidItem.mk 0x08 [0x25], HidItem.mk 0xA0 [0x02],
    HidItem.mk 0x08 [0x26], HidItem.mk 0x08 [0x27], HidItem.mk 0x08 [0x30],
    HidItem.mk 0x08 [0x31], HidItem.mk 0x08 [0x32], HidItem.mk 0x08 [0x33],
    HidItem.mk 0x08 [0x34], HidItem.mk 0x08 [0x40], HidItem.mk 0x08 [0x41],
    HidItem.mk 0x08 [0x42], HidItem.mk 0x08 [0x43], HidItem.mk 0x14 [0x01],
    HidItem.mk 0x24 [0x0B], HidItem.mk 0x34 [0x01], HidItem.mk 0x44 [0x0B],
    HidItem.mk 0x74 [0x08], HidItem.mk 0x94 [0x01], HidItem.mk 0xB0 [0x00], HidItem.mk 0xC0 [],
    HidItem.mk 0x04 [0x01], HidItem.mk 0x08 [0x3B], HidItem.mk 0x14 [0x00],
    HidItem.mk 0x24 [0xFF, 0x01], HidItem.mk 0x34 [0x00], HidItem.mk 0x44 [0xFF, 0x01],
    HidItem.mk 0x74 [0x0A], HidItem.mk 0x94 [0x01], HidItem.mk 0xB0 [0x02],
    HidItem.mk 0x74 [0x06], HidItem.mk 0xB0 [0x01], HidItem.mk 0xC0 [], HidItem.mk 0x04 [0x0F],
    HidItem.mk 0x08 [0x89], HidItem.mk 0xA0 [0x02], HidItem.mk 0x84 [0x06],
    HidItem.mk 0x08 [0x22], HidItem.mk 0x24 [0x28], HidItem.mk 0x14 [0x01],
    HidItem.mk 0x34 [0x01], HidItem.mk 0x44 [0x28], HidItem.mk 0x74 [0x08],
    HidItem.mk 0x94 [0x01], HidItem.mk 0xB0 [0x02], HidItem.mk 0x08 [0x8B],
    HidItem.mk 0xA0 [0x02], HidItem.mk 0x08 [0x8C], HidItem.mk 0x08 [0x8D],
    HidItem.mk 0x08 [0x8E], HidItem.mk 0x24 [0x03], HidItem.mk 0x14 [0x01],
    HidItem.mk 0x34 [0x01], HidItem.mk 0x44 [0x03], HidItem.mk 0x74 [0x08],
    HidItem.mk 0x94 [0x01], HidItem.mk 0xB0 [0x00], HidItem.mk 0xC0 [], HidItem.mk 0x08 [0xAC],
    HidItem.mk 0x14 [0x00], HidItem.mk 0x24 [0xFF, 0xFF, 0x00, 0x00], HidItem.mk 0x34 [0x00],
    HidItem.mk 0x44 [0xFF, 0xFF, 0x00, 0x00], HidItem.mk 0x74 [0x10], HidItem.mk 0x94 [0x01],
    HidItem.mk 0xB0 [0x00], HidItem.mk 0xC0 [], HidItem.mk 0x08 [0x7F], HidItem.mk 0xA0 [0x02],
    HidItem.mk 0x84 [0x07], HidItem.mk 0x08 [0x80], HidItem.mk 0x74 [0x10],
    HidItem.mk 0x94 [0x01], HidItem.mk 0x14 [0x00], HidItem.mk 0x24 [0xFF, 0xFF, 0x00, 0x00],
    HidItem.mk 0x34 [0x00], HidItem.mk 0x44 [0xFF, 0xFF, 0x00, 0x00], HidItem.mk 0xB0 [0x02],
    HidItem.mk 0x08 [0x83], HidItem.mk 0x24 [0xFF, 0x00], HidItem.mk 0x44 [0xFF, 0x00],
    HidItem.mk 0x74 [0x08], HidItem.mk 0x94 [0x01], HidItem.mk 0xB0 [0x02],
    HidItem.mk 0x08 [0xA9], HidItem.mk 0x08 [0xAA], HidItem.mk 0x74 [0x01],
    HidItem.mk 0x94 [0x02], HidItem.mk 0x14 [0x00], HidItem.mk 0x24 [0x01],
    HidItem.mk 0x34 [0x00], HidItem.mk 0x44 [0x01], HidItem.mk 0xB0 [0x02],
    HidItem.mk 0x74 [0x06], HidItem.mk 0x94 [0x01], HidItem.mk 0xB0 [0x03], HidItem.mk 0xC0 [],
    HidItem.mk 0xC0 [] ]

/-- The id of an Output transfer (specification side): the declared id, or
the first byte of the buffer when the declared id is 0 (0 when there is no
byte). -/
def effectiveId (report_id : Nat) (buffer : List Nat) : Nat :=
  if report_id = 0 then buffer.headD 0 else report_id

/-! ## Sequences of calls -/

/-- One call into the adapter, with its arguments. -/
inductive Op
  | get_report (report_id : Nat) (report_type : hid_report_type_t) (buffer : List Nat)
      (reqlen : Nat)
  | set_report (report_id : Nat) (report_type : hid_report_type_t) (buffer : List Nat)
      (bufsize : Nat)
  | send_report (tud_hid_ready : Bool) (id : Nat) (data : List Nat) (len : Nat)
  | send_input (tud_hid_ready : Bool) (x y z rx ry buttons : Nat)
  | descriptor
  deriving DecidableEq, Repr

/-- The state after one call (`none` when an access leaves its object). -/
def step (f : CreateNewEffectHandler) (MAX_EFFECTS : Nat) (s : State) : Op → Option State
  | Op.get_report report_id report_type buffer reqlen =>
    (tud_hid_get_report_cb MAX_EFFECTS s report_id report_type buffer reqlen).map
      (fun r => r.2.2)
  | Op.set_report report_id report_type buffer bufsize =>
    tud_hid_set_report_cb f s report_id report_type buffer bufsize
  | Op.send_report ready id data len => some (HID_SendReport ready s id data len)
  | Op.send_input ready x y z rx ry buttons =>
    some (SendInputReport ready s x y z rx ry buttons)
  | Op.descriptor => some s

/-- The state after a sequence of calls. -/
def run (f : CreateNewEffectHandler) (MAX_EFFECTS : Nat) : State → List Op → Option State
  | s, [] => some s
  | s, op :: ops =>
    match step f MAX_EFFECTS s op with
    | none => none
    | some s1 => run f MAX_EFFECTS s1 ops

/-- Whether a call is one of the two that write the mailbox
`gNewEffectBlockLoad`: a Feature Set for report id 5, a Feature Get for report
id 6. -/
def Op.writesMailbox : Op → Bool
  | Op.set_report report_id report_type _ _ =>
    decide (report_type = hid_report_type_t.HID_REPORT_TYPE_FEATURE ∧ report_id = 5)
  | Op.get_report report_id report_type _ _ =>
    decide (report_type = hid_report_type_t.HID_REPORT_TYPE_FEATURE ∧ report_id = 6)
  | _ => false

/-- Whether the buffer of a call holds the number of bytes the call declares
(the contract of the device stack for the two callbacks). -/
def Op.inBounds : Op → Bool
  | Op.get_report _ _ buffer reqlen => decide (reqlen ≤ buffer.length)
  | Op.set_report _ _ buffer bufsize => decide (bufsize ≤ buffer.length)
  | _ => true

/-! ## Payload of an Output report (specification side) -/

/-- Number of payload bits of the Output report `id`: the sum of
REPORT_SIZE x REPORT_COUNT over its Output items (the id byte is not counted). -/
def outputPayloadBits (id : Nat) (d : List Nat) : Nat :=
  ((fieldsOf 0x90 id d).map HidField.width).sum

/-- Number of payload bytes of the Output report `id`. -/
def outputPayloadBytes (id : Nat) (d : List Nat) : Nat :=
  (outputPayloadBits id d + 7) / 8

/-! ## Arithmetic reading of the bit operations -/

theorem and_0xf (a : Nat) : a &&& 0xf = a % 16 :=
  Nat.and_pow_two_sub_one_eq_mod a 4

theorem or_nibbles_small : ∀ a < 16, ∀ b < 16, (a ||| (b <<< 4)) = a + 16 * b := by
  decide

theorem or_nibbles (a b : Nat) :
    u8 (u8 (a &&& 0xf) ||| u8 ((b &&& 0xf) <<< 4)) = a % 16 + 16 * (b % 16) := by
  have ha : a % 16 < 16 := Nat.mod_lt _ (by decide)
  have hb : b % 16 < 16 := Nat.mod_lt _ (by decide)
  have h := or_nibbles_small (a % 16) ha (b % 16) hb
  have h1 : u8 (a % 16) = a % 16 := by unfold u8; omega
  have h2 : u8 ((b % 16) <<< 4) = (b % 16) <<< 4 := by
    unfold u8; rw [Nat.shiftLeft_eq]; omega
  rw [and_0xf, and_0xf, h1, h2, h]
  unfold u8; omega

/-- The twelve bytes of `j` written with division and remainder. -/
theorem SendInputReport_j_arith (x y z rx ry buttons : Nat) :
    SendInputReport_j x y z rx ry buttons =
      [ x % 256, x / 256 % 256, y % 256, y / 256 % 256, z % 256,
        z / 256 % 16 + 16 * (rx % 16), rx / 16 % 256, ry % 256,
        ry / 256 % 16 + 16 * (buttons % 16), buttons / 16 % 256,
        buttons / 4096 % 256, buttons / 1048576 % 256 ] := by
  unfold SendInputReport_j
  simp only [or_nibbles]
  simp only [u8, Nat.shiftRight_eq_div_pow]

theorem leBytes_twelve (n : Nat) : leBytes 12 n =
    [ n % 256, n / 256 % 256, n / 256 ^ 2 % 256, n / 256 ^ 3 % 256, n / 256 ^ 4 % 256,
      n / 256 ^ 5 % 256, n / 256 ^ 6 % 256, n / 256 ^ 7 % 256, n / 256 ^ 8 % 256,
      n / 256 ^ 9 % 256, n / 256 ^ 10 % 256, n / 256 ^ 11 % 256 ] := by
  simp [leBytes, List.range_succ]

/-! ## Checked copies -/

theorem memcpy_some_bounds (dst : List Nat) (dOff : Nat) (src : List Nat) (sOff n : Nat)
    (out : List Nat) (h : memcpy dst dOff src sOff n = some out) :
    dOff + n ≤ dst.length ∧ sOff + n ≤ src.length := by
  unfold memcpy at h
  by_cases hc : dOff + n ≤ dst.length ∧ sOff + n ≤ src.length
  · exact hc
  · rw [if_neg hc] at h
    simp at h

/-! ## The Output path of `tud_hid_set_report_cb` -/

theorem temp_set_zero (rid : Nat) :
    (List.replicate 65 0).set 0 rid = rid :: List.replicate 64 0 := by
  rfl

/-- Copy of `c` bytes from `src + off` behind the first byte of an object
whose other `k` bytes are zero. -/
theorem memcpy_after_id (rid : Nat) (src : List Nat) (k off c : Nat)
    (hc : c ≤ k) (hs : off + c ≤ src.length) :
    memcpy (rid :: List.replicate k 0) 1 src off c
      = some (rid :: ((src.drop off).take c ++ List.replicate (k - c) 0)) := by
  unfold memcpy
  have hcond : 1 + c ≤ (rid :: List.replicate k 0).length ∧ off + c ≤ src.length := by
    constructor
    · simp; omega
    · exact hs
  rw [if_pos hcond]
  have h1 : (rid :: List.replicate k 0).drop (1 + c) = List.replicate (k - c) 0 := by
    rw [Nat.add_comm, List.drop_succ_cons, List.drop_replicate]
  rw [h1]
  simp

/-- The frame handed to `FfbOnUsbData`: the first `c + 1` bytes of `temp`. -/
theorem temp_take (rid : Nat) (l : List Nat) (c : Nat) (hc : c ≤ 64) (hl : l.length = c) :
    (rid :: (l ++ List.replicate (64 - c) 0)).take (u16 (c + 1)) = rid :: l
      ∧ u16 (c + 1) = c + 1 := by
  have hu : u16 (c + 1) = c + 1 := by unfold u16; omega
  rw [hu, List.take_succ_cons]
  subst hl
  simp

/-- The tail of `tud_hid_set_report_cb` on the Output path, once `rid`, `data`
and `len` are settled and `rid` is not zero. -/
theorem output_forward (s : State) (rid : Nat) (buffer : List Nat) (data len : Nat)
    (hs : data + min len 64 ≤ buffer.length) :
    (match (if (if len > 65 - 1 then u16 (65 - 1) else len) > 0 then
              memcpy ((List.replicate 65 0).set 0 rid) 1 buffer data
                (if len > 65 - 1 then u16 (65 - 1) else len)
            else some ((List.replicate 65 0).set 0 rid)) with
      | none => none
      | some temp2 =>
        some { s with
          calls := s.calls ++
            [Call.FfbOnUsbData
              (temp2.take (u16 ((if len > 65 - 1 then u16 (65 - 1) else len) + 1)))
              (u16 ((if len > 65 - 1 then u16 (65 - 1) else len) + 1))] })
      = some { s with
          calls := s.calls ++
            [Call.FfbOnUsbData (rid :: (buffer.drop data).take (min len 64)) (min len 64 + 1)] } := by
  have hcl : (if len > 65 - 1 then u16 (65 - 1) else len) = min len 64 := by
    unfold u16; split <;> omega
  rw [hcl, temp_set_zero]
  have hc : min len 64 ≤ 64 := Nat.min_le_right _ _
  have hlen : ((buffer.drop data).take (min len 64)).length = min len 64 := by
    rw [List.length_take, List.length_drop]; omega
  by_cases h0 : min len 64 > 0
  · rw [if_pos h0, memcpy_after_id rid buffer 64 data _ hc hs]
    simp only
    obtain ⟨h1, h2⟩ := temp_take rid _ _ hc hlen
    rw [h1, h2]
  · rw [if_neg h0]
    have hz : min len 64 = 0 := by omega
    simp only
    rw [hz]
    simp [u16]

/-- Output transfer whose declared report id is not zero. -/
theorem set_report_output_declared (f : CreateNewEffectHandler) (s : State)
    (r : Nat) (buffer : List Nat) (bufsize : Nat)
    (hr : r ≠ 0) (hs : min bufsize 64 ≤ buffer.length) :
    tud_hid_set_report_cb f s r hid_report_type_t.HID_REPORT_TYPE_OUTPUT buffer bufsize
      = some { s with
          calls := s.calls ++
            [Call.FfbOnUsbData (r :: buffer.take (min bufsize 64)) (min bufsize 64 + 1)] } := by
  unfold tud_hid_set_report_cb
  rw [if_neg (by decide), if_pos rfl]
  have hn : ¬ (r = 0 ∧ bufsize > 0) := fun h => hr h.1
  rw [if_neg hn]
  dsimp only
  rw [if_neg hr]
  exact output_forward s r buffer 0 bufsize (by omega)

/-- Output transfer with declared report id zero, at least one byte, and a
first byte that is not zero. -/
theorem set_report_output_recovered (f : CreateNewEffectHandler) (s : State)
    (b : Nat) (rest : List Nat) (bufsize : Nat)
    (hb : b ≠ 0) (hpos : 0 < bufsize) (hs : min (bufsize - 1) 64 ≤ rest.length) :
    tud_hid_set_report_cb f s 0 hid_report_type_t.HID_REPORT_TYPE_OUTPUT (b :: rest) bufsize
      = some { s with
          calls := s.calls ++
            [Call.FfbOnUsbData (b :: rest.take (min (bufsize - 1) 64))
              (min (bufsize - 1) 64 + 1)] } := by
  unfold tud_hid_set_report_cb
  rw [if_neg (by decide), if_pos rfl]
  have hy : (0 = 0 ∧ bufsize > 0) := ⟨rfl, hpos⟩
  rw [if_pos hy]
  have hread : (b :: rest)[0]? = some b := by simp
  rw [hread]
  dsimp only [Option.map]
  rw [if_neg hb]
  exact output_forward s b (b :: rest) 1 (bufsize - 1) (by simp; omega)

/-- Output transfer with declared report id zero that is discarded: no byte,
or a first byte equal to zero. -/
theorem set_report_output_discarded (f : CreateNewEffectHandler) (s : State)
    (buffer : List Nat) (bufsize : Nat)
    (h : bufsize = 0 ∨ buffer.head? = some 0) :
    tud_hid_set_report_cb f s 0 hid_report_type_t.HID_REPORT_TYPE_OUTPUT buffer bufsize
      = some s := by
  unfold tud_hid_set_report_cb
  rw [if_neg (by decide), if_pos rfl]
  by_cases hpos : bufsize > 0
  · have hy : (0 = 0 ∧ bufsize > 0) := ⟨rfl, hpos⟩
    rw [if_pos hy]
    rcases h with h | h
    · omega
    · cases buffer with
      | nil => simp at h
      | cons b rest =>
        simp only [List.head?_cons, Option.some.injEq] at h
        subst h
        simp
  · have hn : ¬ (0 = 0 ∧ bufsize > 0) := fun h => hpos h.2
    rw [if_neg hn]
    simp

/-! ## The Feature paths -/

/-- Copy of `n` bytes of `src`, from offset 1 on, to the start of the host
buffer. -/
theorem memcpy_host (buffer src : List Nat) (n : Nat)
    (hn : n ≤ buffer.length) (hsrc : 1 + n ≤ src.length) :
    memcpy buffer 0 src 1 n = some ((src.drop 1).take n ++ buffer.drop n) := by
  unfold memcpy
  have hcond : 0 + n ≤ buffer.length ∧ 1 + n ≤ src.length := ⟨by omega, hsrc⟩
  rw [if_pos hcond]
  simp

/-- Feature Get for report id 6. -/
theorem get_report_blockload (M : Nat) (s : State) (buffer : List Nat) (reqlen : Nat)
    (h : min reqlen 4 ≤ buffer.length) :
    tud_hid_get_report_cb M s 6 hid_report_type_t.HID_REPORT_TYPE_FEATURE buffer reqlen
      = some (min reqlen 4,
          (s.gNewEffectBlockLoad.bytes.drop 1).take (min reqlen 4) ++ buffer.drop (min reqlen 4),
          { s with gNewEffectBlockLoad := { s.gNewEffectBlockLoad with reportId := 0 } }) := by
  unfold tud_hid_get_report_cb
  rw [if_neg (by decide), if_pos rfl]
  have hlen : (if reqlen < (if sizeof_PIDBlockLoad > 1 then u16 (sizeof_PIDBlockLoad - 1) else 0)
      then reqlen else (if sizeof_PIDBlockLoad > 1 then u16 (sizeof_PIDBlockLoad - 1) else 0))
      = min reqlen 4 := by
    simp only [sizeof_PIDBlockLoad, u16]
    norm_num
    split <;> omega
  dsimp only
  rw [hlen]
  by_cases h0 : min reqlen 4 > 0
  · rw [if_pos h0, memcpy_host buffer _ _ h
      (by simp [USB_FFBReport_PIDBlockLoad_Feature_Data_t.bytes]; omega)]
  · rw [if_neg h0]
    have hz : min reqlen 4 = 0 := by omega
    rw [hz]
    simp

/-- Feature Get for report id 7. -/
theorem get_report_pool (M : Nat) (s : State) (buffer : List Nat) (reqlen : Nat)
    (h : min reqlen 4 ≤ buffer.length) :
    tud_hid_get_report_cb M s 7 hid_report_type_t.HID_REPORT_TYPE_FEATURE buffer reqlen
      = some (min reqlen 4,
          ((tud_hid_get_report_cb_ans M 7).bytes.drop 1).take (min reqlen 4)
            ++ buffer.drop (min reqlen 4),
          s) := by
  unfold tud_hid_get_report_cb
  rw [if_neg (by decide), if_neg (by decide), if_pos rfl]
  have hlen : (if reqlen < (if sizeof_PIDPool > 1 then u16 (sizeof_PIDPool - 1) else 0)
      then reqlen else (if sizeof_PIDPool > 1 then u16 (sizeof_PIDPool - 1) else 0))
      = min reqlen 4 := by
    simp only [sizeof_PIDPool, u16]
    norm_num
    split <;> omega
  dsimp only
  rw [hlen]
  by_cases h0 : min reqlen 4 > 0
  · rw [if_pos h0, memcpy_host buffer _ _ h
      (by simp [USB_FFBReport_PIDPool_Feature_Data_t.bytes]; omega)]
  · rw [if_neg h0]
    have hz : min reqlen 4 = 0 := by omega
    rw [hz]
    simp

/-- The decode step shared by the two Feature Set branches. -/
theorem decode_step (id k : Nat) (buffer : List Nat) (L : Nat)
    (h : min L k ≤ buffer.length) :
    (if min L k > 0 then memcpy (id :: List.replicate k 0) 1 buffer 0 (min L k)
      else some (id :: List.replicate k 0)) = some (decodedImage id k buffer L) := by
  unfold decodedImage
  by_cases h0 : min L k > 0
  · rw [if_pos h0, memcpy_after_id id buffer k 0 _ (Nat.min_le_right _ _) (by omega)]
    simp
  · rw [if_neg h0]
    have hz : min L k = 0 := by omega
    rw [hz]
    simp

/-- Feature Set for report id 5. -/
theorem set_report_create (f : CreateNewEffectHandler) (s : State)
    (buffer : List Nat) (bufsize : Nat) (h : min bufsize 3 ≤ buffer.length) :
    tud_hid_set_report_cb f s 5 hid_report_type_t.HID_REPORT_TYPE_FEATURE buffer bufsize
      = some { gNewEffectBlockLoad := f (decodedImage 5 3 buffer bufsize) s.gNewEffectBlockLoad,
               calls := s.calls ++ [Call.FfbOnCreateNewEffect (decodedImage 5 3 buffer bufsize)] } := by
  unfold tud_hid_set_report_cb
  rw [if_pos rfl, if_pos rfl]
  have hlen : (if bufsize < (if sizeof_CreateNewEffect > 1 then u16 (sizeof_CreateNewEffect - 1)
      else 0) then bufsize else (if sizeof_CreateNewEffect > 1 then
      u16 (sizeof_CreateNewEffect - 1) else 0)) = min bufsize 3 := by
    simp only [sizeof_CreateNewEffect, u16]
    norm_num
    split <;> omega
  have himg : (List.replicate sizeof_CreateNewEffect 0).set 0 5 = 5 :: List.replicate 3 0 := rfl
  dsimp only
  rw [hlen, himg, decode_step 5 3 buffer bufsize h]

/-- Feature Set for report id 7. -/
theorem set_report_pool (f : CreateNewEffectHandler) (s : State)
    (buffer : List Nat) (bufsize : Nat) (h : min bufsize 4 ≤ buffer.length) :
    tud_hid_set_report_cb f s 7 hid_report_type_t.HID_REPORT_TYPE_FEATURE buffer bufsize
      = some { s with
          calls := s.calls ++ [Call.FfbOnPIDPool (decodedImage 7 4 buffer bufsize)] } := by
  unfold tud_hid_set_report_cb
  rw [if_pos rfl, if_neg (by decide), if_pos rfl]
  have hlen : (if bufsize < (if sizeof_PIDPool > 1 then u16 (sizeof_PIDPool - 1)
      else 0) then bufsize else (if sizeof_PIDPool > 1 then
      u16 (sizeof_PIDPool - 1) else 0)) = min bufsize 4 := by
    simp only [sizeof_PIDPool, u16]
    norm_num
    split <;> omega
  have himg : (List.replicate sizeof_PIDPool 0).set 0 7 = 7 :: List.replicate 4 0 := rfl
  dsimp only
  rw [hlen, himg, decode_step 7 4 buffer bufsize h]

theorem decodedImage_length (id k : Nat) (buffer : List Nat) (L : Nat)
    (h : min L k ≤ buffer.length) : (decodedImage id k buffer L).length = k + 1 := by
  simp only [decodedImage, List.length_cons, List.length_append, List.length_take,
    List.length_replicate]
  omega

theorem decodedImage_payload (id k : Nat) (buffer : List Nat) (L : Nat)
    (h : min L k ≤ buffer.length) :
    ((decodedImage id k buffer L).drop 1).take (min L k) = buffer.take (min L k) := by
  simp only [decodedImage, List.drop_succ_cons, List.drop_zero]
  rw [List.take_append_of_le_length (by rw [List.length_take]; omega)]
  rw [List.take_take, Nat.min_self]

theorem decodedImage_zeros (id k : Nat) (buffer : List Nat) (L : Nat)
    (h : min L k ≤ buffer.length) (i : Nat) (hlo : min L k < i) (hhi : i < k + 1) :
    (decodedImage id k buffer L)[i]? = some 0 := by
  obtain ⟨j, rfl⟩ : ∃ j, i = j + 1 := ⟨i - 1, by omega⟩
  simp only [decodedImage, List.getElem?_cons_succ]
  have hlen : (buffer.take (min L k)).length = min L k := by
    rw [List.length_take]; omega
  rw [List.getElem?_append_right (by omega), hlen, List.getElem?_replicate]
  rw [if_pos (by omega)]

theorem composed_take (src buffer : List Nat) (n : Nat) (hsrc : n ≤ (src.drop 1).length) :
    ((src.drop 1).take n ++ buffer.drop n).take n = (src.drop 1).take n := by
  rw [List.take_append_of_le_length (by rw [List.length_take]; omega)]
  rw [List.take_take, Nat.min_self]

theorem composed_drop (src buffer : List Nat) (n : Nat) (hsrc : n ≤ (src.drop 1).length) :
    ((src.drop 1).take n ++ buffer.drop n).drop n = buffer.drop n := by
  have hlen : ((src.drop 1).take n).length = n := by
    rw [List.length_take]; omega
  rw [List.drop_append_of_le_length (by omega)]
  rw [List.drop_of_length_le (by omega)]
  simp

theorem composed_length (src buffer : List Nat) (n : Nat) (hsrc : n ≤ (src.drop 1).length)
    (hbuf : n ≤ buffer.length) :
    ((src.drop 1).take n ++ buffer.drop n).length = buffer.length := by
  simp only [List.length_append, List.length_take, List.length_drop] at hsrc ⊢
  omega

/-- Output transfer with declared report id zero whose buffer starts with a
byte that is not zero, the declared length being the length of the buffer. -/
theorem set_report_output_recovered_whole (f : CreateNewEffectHandler) (s : State)
    (b : Nat) (rest : List Nat) (hb : b ≠ 0) :
    tud_hid_set_report_cb f s 0 hid_report_type_t.HID_REPORT_TYPE_OUTPUT
        (b :: rest) (b :: rest).length
      = some { s with
          calls := s.calls ++
            [Call.FfbOnUsbData (b :: rest.take (min rest.length 64))
              (min rest.length 64 + 1)] } := by
  have h := set_report_output_recovered f s b rest (b :: rest).length hb (by simp) (by simp)
  simpa using h

/-! ## Sequences of calls -/

theorem run_append (f : CreateNewEffectHandler) (M : Nat) (s0 s : State) (ops ops2 : List Op)
    (h : run f M s0 ops = some s) :
    run f M s0 (ops ++ ops2) = run f M s ops2 := by
  induction ops generalizing s0 with
  | nil =>
    simp only [run, Option.some.injEq] at h
    subst h
    rfl
  | cons op rest ih =>
    simp only [run, List.cons_append] at h ⊢
    cases hstep : step f M s0 op with
    | none =>
      rw [hstep] at h
      simp at h
    | some s1 =>
      rw [hstep] at h
      exact ih s1 h

/-! ## The descriptor read item by item -/

theorem hid_report_descriptor_length (c : ConfigHID) :
    (hid_report_descriptor c).length = 1249 := by
  rfl

theorem hidItems_descriptor (c : ConfigHID) :
    hidItems (hid_report_descriptor c).length (hid_report_descriptor c) = descriptorItems c := by
  rw [hid_report_descriptor_length]
  rfl

theorem reportFields_descriptor (c : ConfigHID) :
    reportFields (hid_report_descriptor c)
      = hidFields (descriptorItems c) ⟨0, 0, 0, 0, 0, 0, 0, []⟩ := by
  unfold reportFields
  rw [hidItems_descriptor]

/-! ## The descriptor: Input fields of report id 4 -/

theorem joystick_input_widths (c : ConfigHID)
    (hX : c.X_AXIS_NB_BITS = 16) (hY : c.Y_AXIS_NB_BITS = 16) (hZ : c.Z_AXIS_NB_BITS = 12)
    (hRX : c.RX_AXIS_NB_BITS = 12) (hRY : c.RY_AXIS_NB_BITS = 12) (hB : c.NB_BUTTONS = 24) :
    (fieldsOf 0x80 4 (hid_report_descriptor c)).map HidField.width
      = [16, 16, 12, 12, 12, 4, 24] := by
  unfold fieldsOf
  rw [reportFields_descriptor]
  obtain ⟨a1, a2, a3, a4, b1, b2, b3, b4, c1, c2, c3, c4, d1, d2, d3, d4,
    e1, e2, e3, e4, nb, nf⟩ := c
  simp only at hX hY hZ hRX hRY hB
  subst hX hY hZ hRX hRY hB
  rfl

/-! ## Calls that leave the mailbox alone -/

theorem get_report_other (M : Nat) (s : State) (report_id : Nat)
    (report_type : hid_report_type_t) (buffer : List Nat) (reqlen : Nat)
    (h : report_type ≠ hid_report_type_t.HID_REPORT_TYPE_FEATURE
          ∨ (report_id ≠ 6 ∧ report_id ≠ 7)) :
    tud_hid_get_report_cb M s report_id report_type buffer reqlen = some (0, buffer, s) := by
  unfold tud_hid_get_report_cb
  by_cases ht : report_type = hid_report_type_t.HID_REPORT_TYPE_FEATURE
  · rcases h with h | ⟨h6, h7⟩
    · exact absurd ht h
    · rw [if_neg (not_not.mpr ht), if_neg h6, if_neg h7]
  · rw [if_pos ht]

theorem set_report_other (f : CreateNewEffectHandler) (s : State) (report_id : Nat)
    (report_type : hid_report_type_t) (buffer : List Nat) (bufsize : Nat)
    (h : (report_type = hid_report_type_t.HID_REPORT_TYPE_FEATURE
            ∧ report_id ≠ 5 ∧ report_id ≠ 7)
          ∨ (report_type ≠ hid_report_type_t.HID_REPORT_TYPE_FEATURE
            ∧ report_type ≠ hid_report_type_t.HID_REPORT_TYPE_OUTPUT)) :
    tud_hid_set_report_cb f s report_id report_type buffer bufsize = some s := by
  unfold tud_hid_set_report_cb
  rcases h with ⟨ht, h5, h7⟩ | ⟨hf, ho⟩
  · rw [if_pos ht, if_neg h5, if_neg h7]
  · rw [if_neg hf, if_neg ho]

/-- An Output transfer whose buffer holds the declared bytes completes and
keeps the mailbox. -/
theorem set_report_output_mailbox (f : CreateNewEffectHandler) (s : State)
    (r : Nat) (buffer : List Nat) (bufsize : Nat) (hb : bufsize ≤ buffer.length) :
    ∃ s1, tud_hid_set_report_cb f s r hid_report_type_t.HID_REPORT_TYPE_OUTPUT buffer bufsize
            = some s1
      ∧ s1.gNewEffectBlockLoad = s.gNewEffectBlockLoad := by
  by_cases hr : r = 0
  · subst hr
    by_cases hz : bufsize = 0
    · exact ⟨s, set_report_output_discarded f s buffer bufsize (Or.inl hz), rfl⟩
    · cases buffer with
      | nil =>
        simp only [List.length_nil] at hb
        omega
      | cons b rest =>
        by_cases hb0 : b = 0
        · subst hb0
          exact ⟨s, set_report_output_discarded f s _ bufsize (Or.inr rfl), rfl⟩
        · simp only [List.length_cons] at hb
          exact ⟨_, set_report_output_recovered f s b rest bufsize hb0 (by omega) (by omega),
            rfl⟩
  · exact ⟨_, set_report_output_declared f s r buffer bufsize hr (by omega), rfl⟩

/-! ## The descriptor: Output reports and their payloads -/

theorem outputReportIds_descriptor (c : ConfigHID) :
    outputReportIds (hid_report_descriptor c)
      = [0xF1, 1, 2, 3, 4, 5, 6, 0x0A, 0x0B, 0x0C, 0x0D] := by
  unfold outputReportIds
  rw [reportFields_descriptor]
  rfl

theorem outputPayloadBits_eq (id : Nat) (d : List Nat) :
    outputPayloadBits id d
      = (((fieldsOf 0x90 id d).map (fun f => (f.reportSize, f.reportCount))).map
          (fun sc => sc.1 * sc.2)).sum := by
  unfold outputPayloadBits
  rw [List.map_map]
  rfl

/-- The Output items, as (size, count), of the Output reports other than
report 1. -/
theorem output_items_fixed (c : ConfigHID) :
    [0xF1, 2, 3, 4, 5, 6, 0x0A, 0x0B, 0x0C, 0x0D].map
        (fun id => (fieldsOf 0x90 id (hid_report_descriptor c)).map
          (fun f => (f.reportSize, f.reportCount)))
      = [ [(8, 63)],
          [(8, 1), (8, 2), (16, 2)],
          [(8, 1), (4, 1), (2, 2), (16, 1), (16, 1), (16, 1), (8, 1)],
          [(8, 1), (16, 1), (16, 1), (8, 1), (16, 1)],
          [(8, 1), (16, 1)],
          [(8, 1), (8, 2)],
          [(8, 1), (8, 1), (8, 1)],
          [(8, 1)], [(8, 1)], [(8, 1)] ] := by
  simp only [fieldsOf, reportFields_descriptor]
  rfl

/-- The Output items, as (size, count), of report 1; two counts are taken from
`NB_FF_AXIS`. -/
theorem set_effect_items (c : ConfigHID) :
    (fieldsOf 0x90 1 (hid_report_descriptor c)).map (fun f => (f.reportSize, f.reportCount))
      = [(8, 1), (8, 1), (16, 2), (16, 1), (8, 1), (1, initByte c.NB_FF_AXIS), (1, 1),
          (1, initByte (0x07 - c.NB_FF_AXIS)), (16, 1), (16, 1)] := by
  unfold fieldsOf
  rw [reportFields_descriptor]
  rfl

theorem initByte_pair (v : Int) : initByte v + initByte (0x07 - v) ≤ 263 := by
  unfold initByte
  omega

/-- Payload bytes of the Output reports other than report 1. -/
theorem output_payload_bytes_fixed (c : ConfigHID) :
    [0xF1, 2, 3, 4, 5, 6, 0x0A, 0x0B, 0x0C, 0x0D].map
        (fun id => outputPayloadBytes id (hid_report_descriptor c))
      = [63, 7, 9, 8, 3, 3, 3, 1, 1, 1] := by
  have h := output_items_fixed c
  simp only [List.map_cons, List.map_nil, List.cons.injEq, and_true] at h
  obtain ⟨h1, h2, h3, h4, h5, h6, h7, h8, h9, h10⟩ := h
  simp only [List.map_cons, List.map_nil, outputPayloadBytes, outputPayloadBits_eq,
    h1, h2, h3, h4, h5, h6, h7, h8, h9, h10, List.sum_cons, List.sum_nil]
  rfl

theorem output_payload_vendor (c : ConfigHID) :
    outputPayloadBytes 0xF1 (hid_report_descriptor c) = 63 := by
  have hfix := output_payload_bytes_fixed c
  simp only [List.map_cons, List.map_nil, List.cons.injEq, and_true] at hfix
  exact hfix.1

theorem set_effect_payload_bytes_le (c : ConfigHID) :
    outputPayloadBytes 1 (hid_report_descriptor c) ≤ 46 := by
  unfold outputPayloadBytes
  rw [outputPayloadBits_eq, set_effect_items]
  have h := initByte_pair c.NB_FF_AXIS
  simp only [List.map_cons, List.map_nil, List.sum_cons, List.sum_nil]
  omega

/-- An Output transfer of at most 64 bytes with a declared id that is not zero
is forwarded whole. -/
theorem set_report_output_declared_whole (f : CreateNewEffectHandler) (s : State)
    (r : Nat) (p : List Nat) (hr : r ≠ 0) (hp : p.length ≤ 64) :
    tud_hid_set_report_cb f s r hid_report_type_t.HID_REPORT_TYPE_OUTPUT p p.length
      = some { s with calls := s.calls ++ [Call.FfbOnUsbData (r :: p) (p.length + 1)] } := by
  rw [set_report_output_declared f s r p p.length hr (Nat.min_le_left _ _),
    Nat.min_eq_left hp, List.take_of_length_le (Nat.le_refl _)]

/-- An Output transfer of at most 65 bytes with declared id zero and a first
byte that is not zero is forwarded whole. -/
theorem set_report_output_recovered_short (f : CreateNewEffectHandler) (s : State)
    (b : Nat) (rest : List Nat) (hb : b ≠ 0) (hp : rest.length ≤ 64) :
    tud_hid_set_report_cb f s 0 hid_report_type_t.HID_REPORT_TYPE_OUTPUT
        (b :: rest) (b :: rest).length
      = some { s with
          calls := s.calls ++ [Call.FfbOnUsbData (b :: rest) (rest.length + 1)] } := by
  rw [set_report_output_recovered_whole f s b rest hb,
    Nat.min_eq_left hp, List.take_of_length_le (Nat.le_refl _)]

/-! ## Joystick report: layout and round trip -/

/-- C1: for in-range fields the twelve bytes built by SendInputReport are the
little-endian encoding of the 96-bit integer
x + y*2^16 + z*2^32 + rx*2^44 + ry*2^56 + buttons*2^68. -/
theorem SendInputReport_j_eq_leBytes (x y z rx ry buttons : Nat)
    (hx : x < 2 ^ 16) (hy : y < 2 ^ 16) (hz : z < 2 ^ 12) (hrx : rx < 2 ^ 12)
    (hry : ry < 2 ^ 12) (hb : buttons < 2 ^ 28) :
    reportWord x y z rx ry buttons < 2 ^ 96 ∧
    SendInputReport_j x y z rx ry buttons = leBytes 12 (reportWord x y z rx ry buttons) := by
  rw [SendInputReport_j_arith, leBytes_twelve]
  unfold reportWord
  norm_num at hx hy hz hrx hry hb ⊢
  refine ⟨?_, ?_, ?_, ?_, ?_, ?_, ?_, ?_, ?_, ?_, ?_, ?_, ?_⟩ <;> omega

/-- Witness of C1: the sample of the concrete scenario. -/
theorem SendInputReport_j_eq_leBytes_witness :
    SendInputReport_j 0x1234 0xABCD 0x0FF 0x0AA 0x0CC 0x0ABCDEF
        = [0x34, 0x12, 0xCD, 0xAB, 0xFF, 0xA0, 0x0A, 0xCC, 0xF0, 0xDE, 0xBC, 0x0A] ∧
      reportWord 0x1234 0xABCD 0x0FF 0x0AA 0x0CC 0x0ABCDEF < 2 ^ 96 ∧
      SendInputReport_j 0x1234 0xABCD 0x0FF 0x0AA 0x0CC 0x0ABCDEF
        = leBytes 12 (reportWord 0x1234 0xABCD 0x0FF 0x0AA 0x0CC 0x0ABCDEF) :=
  ⟨by decide,
   SendInputReport_j_eq_leBytes 0x1234 0xABCD 0x0FF 0x0AA 0x0CC 0x0ABCDEF
     (by decide) (by decide) (by decide) (by decide) (by decide) (by decide)⟩

/-- C2: round trip.  Unpacking the bytes built by SendInputReport by the bit
layout 16, 16, 12, 12, 12, 28 gives back the in-range fields. -/
theorem unpackReport_SendInputReport_j (x y z rx ry buttons : Nat)
    (hx : x < 2 ^ 16) (hy : y < 2 ^ 16) (hz : z < 2 ^ 12) (hrx : rx < 2 ^ 12)
    (hry : ry < 2 ^ 12) (hb : buttons < 2 ^ 28) :
    unpackReport (SendInputReport_j x y z rx ry buttons) = (x, y, z, rx, ry, buttons) := by
  rw [SendInputReport_j_arith]
  simp only [unpackReport, leValue, bitField, Prod.mk.injEq]
  norm_num at hx hy hz hrx hry hb ⊢
  refine ⟨?_, ?_, ?_, ?_, ?_, ?_⟩ <;> omega

/-- Witness of C2: the sample of the concrete scenario. -/
theorem unpackReport_SendInputReport_j_witness :
    unpackReport (SendInputReport_j 0x1234 0xABCD 0x0FF 0x0AA 0x0CC 0x0ABCDEF)
      = (0x1234, 0xABCD, 0x0FF, 0x0AA, 0x0CC, 0x0ABCDEF) :=
  unpackReport_SendInputReport_j 0x1234 0xABCD 0x0FF 0x0AA 0x0CC 0x0ABCDEF
    (by decide) (by decide) (by decide) (by decide) (by decide) (by decide)

/-! ## Output reports: id recovery, discard, forwarding -/

/-- C3 (amended): id recovery.  An Output transfer with declared report id 0
and a buffer whose first byte b is not zero is forwarded to FfbOnUsbData, once,
as the frame b followed by the first 64 of the remaining bytes, with length
min(remaining, 64) + 1; for a buffer of at most 65 bytes the frame is the
buffer itself. -/
theorem output_id_recovery (f : CreateNewEffectHandler) (s : State)
    (b : Nat) (rest : List Nat) (hb : b ≠ 0) :
    tud_hid_set_report_cb f s 0 hid_report_type_t.HID_REPORT_TYPE_OUTPUT
        (b :: rest) (b :: rest).length
      = some { s with
          calls := s.calls ++
            [Call.FfbOnUsbData (b :: rest.take 64) (min rest.length 64 + 1)] }
    ∧ ((b :: rest).length ≤ 65 →
        b :: rest.take 64 = b :: rest ∧ min rest.length 64 + 1 = (b :: rest).length) := by
  constructor
  · have h := set_report_output_recovered f s b rest (b :: rest).length hb
      (by simp) (by simp)
    rw [h]
    have ht : rest.take (min ((b :: rest).length - 1) 64) = rest.take 64 := by
      simp only [List.length_cons, Nat.add_sub_cancel]
      by_cases hl : rest.length ≤ 64
      · rw [Nat.min_eq_left hl, List.take_of_length_le (Nat.le_refl _),
          List.take_of_length_le hl]
      · rw [Nat.min_eq_right (by omega)]
    rw [ht]
    simp
  · intro hl
    simp only [List.length_cons] at hl ⊢
    have hl2 : rest.length ≤ 64 := by omega
    rw [List.take_of_length_le hl2, Nat.min_eq_left hl2]
    exact ⟨rfl, rfl⟩

/-- Witness of C3: declared id 0 with buffer 05 AA BB forwards id 05 with
payload AA BB, length 3. -/
theorem output_id_recovery_witness :
    tud_hid_set_report_cb (fun _ d => d) ⟨⟨0, 0, 0, 0⟩, []⟩ 0
        hid_report_type_t.HID_REPORT_TYPE_OUTPUT [0x05, 0xAA, 0xBB] 3
      = some ⟨⟨0, 0, 0, 0⟩, [Call.FfbOnUsbData [0x05, 0xAA, 0xBB] 3]⟩ :=
  (output_id_recovery (fun _ d => d) ⟨⟨0, 0, 0, 0⟩, []⟩ 0x05 [0xAA, 0xBB] (by decide)).1

/-- Counterexample to C3 as stated: with declared id 0 and a buffer of 66
bytes (05 then 65 times AA) the forwarded payload is 64 bytes long, not the 65
remaining bytes of the buffer. -/
theorem output_id_recovery_counterexample :
    tud_hid_set_report_cb (fun _ d => d) ⟨⟨0, 0, 0, 0⟩, []⟩ 0
        hid_report_type_t.HID_REPORT_TYPE_OUTPUT (0x05 :: List.replicate 65 0xAA) 66
      = some ⟨⟨0, 0, 0, 0⟩, [Call.FfbOnUsbData (0x05 :: List.replicate 64 0xAA) 65]⟩
    ∧ tud_hid_set_report_cb (fun _ d => d) ⟨⟨0, 0, 0, 0⟩, []⟩ 0
        hid_report_type_t.HID_REPORT_TYPE_OUTPUT (0x05 :: List.replicate 65 0xAA) 66
      ≠ some ⟨⟨0, 0, 0, 0⟩, [Call.FfbOnUsbData (0x05 :: List.replicate 65 0xAA) 66]⟩ := by
  decide

/-- C4: discard.  An Output transfer with declared report id 0 always
completes; it leaves the state unchanged, and in particular makes no call to
FfbOnUsbData, exactly when its buffer is empty or its first byte is 0. -/
theorem output_id_zero_discard_iff (f : CreateNewEffectHandler) (s : State) (p : List Nat) :
    ∃ s1, tud_hid_set_report_cb f s 0 hid_report_type_t.HID_REPORT_TYPE_OUTPUT p p.length
            = some s1
      ∧ (s1 = s ↔ (p = [] ∨ p.head? = some 0))
      ∧ (s1.calls = s.calls ↔ (p = [] ∨ p.head? = some 0)) := by
  by_cases hd : p = [] ∨ p.head? = some 0
  · refine ⟨s, ?_, ?_, ?_⟩
    · apply set_report_output_discarded
      rcases hd with h | h
      · left; rw [h]; rfl
      · right; exact h
    · exact ⟨fun _ => hd, fun _ => rfl⟩
    · exact ⟨fun _ => hd, fun _ => rfl⟩
  · cases p with
    | nil => exact absurd (Or.inl rfl) hd
    | cons b rest =>
      have hb : b ≠ 0 := by
        intro h0
        apply hd
        right
        rw [h0]
        rfl
      refine ⟨_, (set_report_output_recovered_whole f s b rest hb), ?_, ?_⟩
      · constructor
        · intro h
          have hc := congrArg State.calls h
          simp at hc
        · intro h
          exact absurd h hd
      · constructor
        · intro h
          simp at h
        · intro h
          exact absurd h hd

/-- C5: an Output transfer with a declared report id r that is not zero makes
exactly one call to FfbOnUsbData, with the frame r followed by the first
min(|p|, 64) bytes of the buffer p and the length min(|p|, 64) + 1. -/
theorem output_declared_id_forward (f : CreateNewEffectHandler) (s : State)
    (r : Nat) (p : List Nat) (hr : r ≠ 0) :
    tud_hid_set_report_cb f s r hid_report_type_t.HID_REPORT_TYPE_OUTPUT p p.length
      = some { s with
          calls := s.calls ++
            [Call.FfbOnUsbData (r :: p.take (min p.length 64)) (min p.length 64 + 1)] } :=
  set_report_output_declared f s r p p.length hr (Nat.min_le_left _ _)

/-- Witness of C5: declared id 1 and a buffer of 70 bytes; the frame carries
the id and the first 64 bytes, length 65. -/
theorem output_declared_id_forward_witness :
    tud_hid_set_report_cb (fun _ d => d) ⟨⟨0, 0, 0, 0⟩, []⟩ 1
        hid_report_type_t.HID_REPORT_TYPE_OUTPUT (List.replicate 70 7) 70
      = some ⟨⟨0, 0, 0, 0⟩, [Call.FfbOnUsbData (1 :: List.replicate 64 7) 65]⟩ :=
  output_declared_id_forward (fun _ d => d) ⟨⟨0, 0, 0, 0⟩, []⟩ 1 (List.replicate 70 7)
    (by decide)

/-! ## Feature reports: mailbox, decode, compose -/

/-- C6 (amended): after a Create-New-Effect dispatch has left the result R in
the mailbox, the first Get-Feature for report id 6 returns the payload of R
(its bytes from offset 1) and leaves the mailbox with report id 0; a second,
back-to-back Get-Feature for report id 6 returns the same payload bytes again
and leaves the state as it is. -/
theorem blockload_poll_after_create (f : CreateNewEffectHandler) (M : Nat) (s0 : State)
    (req : List Nat) (n : Nat) (buf1 buf2 : List Nat) (L : Nat)
    (hreq : min n 3 ≤ req.length)
    (h1 : min L 4 ≤ buf1.length) (h2 : min L 4 ≤ buf2.length) :
    ∃ s1 s2,
      tud_hid_set_report_cb f s0 5 hid_report_type_t.HID_REPORT_TYPE_FEATURE req n = some s1
      ∧ s1.gNewEffectBlockLoad = f (decodedImage 5 3 req n) s0.gNewEffectBlockLoad
      ∧ tud_hid_get_report_cb M s1 6 hid_report_type_t.HID_REPORT_TYPE_FEATURE buf1 L
          = some (min L 4,
              (s1.gNewEffectBlockLoad.bytes.drop 1).take (min L 4) ++ buf1.drop (min L 4), s2)
      ∧ s2.gNewEffectBlockLoad = { s1.gNewEffectBlockLoad with reportId := 0 }
      ∧ tud_hid_get_report_cb M s2 6 hid_report_type_t.HID_REPORT_TYPE_FEATURE buf2 L
          = some (min L 4,
              (s1.gNewEffectBlockLoad.bytes.drop 1).take (min L 4) ++ buf2.drop (min L 4), s2) := by
  refine ⟨_, _, set_report_create f s0 req n hreq, rfl,
    get_report_blockload M _ buf1 L h1, rfl, ?_⟩
  rw [get_report_blockload M _ buf2 L h2]
  rfl

/-- Witness of C6 (amended): an engine that answers block 1, success, pool
0xFFFF; both polls return 01 01 FF FF. -/
theorem blockload_poll_after_create_witness :
    ∃ s1 s2,
      tud_hid_set_report_cb (fun _ _ => ⟨6, 1, 1, 0xFFFF⟩) ⟨⟨0, 0, 0, 0⟩, []⟩ 5
          hid_report_type_t.HID_REPORT_TYPE_FEATURE [1, 0, 0] 3 = some s1
      ∧ s1.gNewEffectBlockLoad
          = (fun _ _ => ⟨6, 1, 1, 0xFFFF⟩) (decodedImage 5 3 [1, 0, 0] 3)
              (⟨⟨0, 0, 0, 0⟩, []⟩ : State).gNewEffectBlockLoad
      ∧ tud_hid_get_report_cb 40 s1 6 hid_report_type_t.HID_REPORT_TYPE_FEATURE [0, 0, 0, 0] 4
          = some (min 4 4,
              (s1.gNewEffectBlockLoad.bytes.drop 1).take (min 4 4)
                ++ [0, 0, 0, 0].drop (min 4 4), s2)
      ∧ s2.gNewEffectBlockLoad = { s1.gNewEffectBlockLoad with reportId := 0 }
      ∧ tud_hid_get_report_cb 40 s2 6 hid_report_type_t.HID_REPORT_TYPE_FEATURE [9, 9, 9, 9] 4
          = some (min 4 4,
              (s1.gNewEffectBlockLoad.bytes.drop 1).take (min 4 4)
                ++ [9, 9, 9, 9].drop (min 4 4), s2) :=
  blockload_poll_after_create (fun _ _ => ⟨6, 1, 1, 0xFFFF⟩) 40 ⟨⟨0, 0, 0, 0⟩, []⟩
    [1, 0, 0] 3 [0, 0, 0, 0] [9, 9, 9, 9] 4 (by decide) (by decide) (by decide)

/-- Counterexample to C6 as stated: the engine leaves R = (id 6, block 1,
success, pool 0xFFFF); the first Get-Feature for report id 6 returns
01 01 FF FF, and the second, back-to-back one returns 01 01 FF FF as well: the
payload of R, not an empty marker. -/
theorem blockload_second_poll_counterexample :
    tud_hid_set_report_cb (fun _ _ => ⟨6, 1, 1, 0xFFFF⟩) ⟨⟨0, 0, 0, 0⟩, []⟩ 5
        hid_report_type_t.HID_REPORT_TYPE_FEATURE [1, 0, 0] 3
      = some ⟨⟨6, 1, 1, 0xFFFF⟩, [Call.FfbOnCreateNewEffect [5, 1, 0, 0]]⟩
    ∧ tud_hid_get_report_cb 40 ⟨⟨6, 1, 1, 0xFFFF⟩, [Call.FfbOnCreateNewEffect [5, 1, 0, 0]]⟩ 6
        hid_report_type_t.HID_REPORT_TYPE_FEATURE [0, 0, 0, 0] 4
      = some (4, [0x01, 0x01, 0xFF, 0xFF],
          ⟨⟨0, 1, 1, 0xFFFF⟩, [Call.FfbOnCreateNewEffect [5, 1, 0, 0]]⟩)
    ∧ tud_hid_get_report_cb 40 ⟨⟨0, 1, 1, 0xFFFF⟩, [Call.FfbOnCreateNewEffect [5, 1, 0, 0]]⟩ 6
        hid_report_type_t.HID_REPORT_TYPE_FEATURE [0, 0, 0, 0] 4
      = some (4, [0x01, 0x01, 0xFF, 0xFF],
          ⟨⟨0, 1, 1, 0xFFFF⟩, [Call.FfbOnCreateNewEffect [5, 1, 0, 0]]⟩) := by
  decide

/-- C7: a Feature Get for report id 6 leaves the mailbox with its report id
equal to 0 and its other fields unchanged, for every mailbox state and every
requested length, 0 included; no collaborator is called. -/
theorem blockload_poll_clears_id (M : Nat) (s : State) (buffer : List Nat) (reqlen : Nat)
    (h : min reqlen 4 ≤ buffer.length) :
    ∃ len buffer1 s1,
      tud_hid_get_report_cb M s 6 hid_report_type_t.HID_REPORT_TYPE_FEATURE buffer reqlen
        = some (len, buffer1, s1)
      ∧ s1.gNewEffectBlockLoad.reportId = 0
      ∧ s1.gNewEffectBlockLoad.effectBlockIndex = s.gNewEffectBlockLoad.effectBlockIndex
      ∧ s1.gNewEffectBlockLoad.loadStatus = s.gNewEffectBlockLoad.loadStatus
      ∧ s1.gNewEffectBlockLoad.ramPoolAvailable = s.gNewEffectBlockLoad.ramPoolAvailable
      ∧ s1.calls = s.calls :=
  ⟨_, _, _, get_report_blockload M s buffer reqlen h, rfl, rfl, rfl, rfl, rfl⟩

/-- Witness of C7: requested length 0 with an empty host buffer. -/
theorem blockload_poll_clears_id_witness :
    ∃ len buffer1 s1,
      tud_hid_get_report_cb 40 ⟨⟨6, 2, 1, 0xFFFF⟩, []⟩ 6
          hid_report_type_t.HID_REPORT_TYPE_FEATURE [] 0 = some (len, buffer1, s1)
      ∧ s1.gNewEffectBlockLoad.reportId = 0
      ∧ s1.gNewEffectBlockLoad.effectBlockIndex = 2
      ∧ s1.gNewEffectBlockLoad.loadStatus = 1
      ∧ s1.gNewEffectBlockLoad.ramPoolAvailable = 0xFFFF
      ∧ s1.calls = [] :=
  blockload_poll_clears_id 40 ⟨⟨6, 2, 1, 0xFFFF⟩, []⟩ [] 0 (by decide)

/-- C8: decode of a Feature Set.  For report id 5 (structure of S = 4 bytes)
and report id 7 (structure of S = 5 bytes) and every declared length L, the
call completes with every access inside its object, and the structure handed
to the Effect Engine is, as its S bytes, the report id, then the first
n = min(L, S-1) bytes of the buffer, then zeros.  The buffer is to hold the
bytes that are copied. -/
theorem feature_set_decode (f : CreateNewEffectHandler) (s : State)
    (buffer : List Nat) (L : Nat)
    (hbuf : min L (sizeof_PIDPool - 1) ≤ buffer.length) :
    (tud_hid_set_report_cb f s 5 hid_report_type_t.HID_REPORT_TYPE_FEATURE buffer L
        = some { gNewEffectBlockLoad :=
                   f (decodedImage 5 (sizeof_CreateNewEffect - 1) buffer L) s.gNewEffectBlockLoad,
                 calls := s.calls ++
                   [Call.FfbOnCreateNewEffect
                     (decodedImage 5 (sizeof_CreateNewEffect - 1) buffer L)] }
      ∧ (decodedImage 5 (sizeof_CreateNewEffect - 1) buffer L).length = sizeof_CreateNewEffect
      ∧ ((decodedImage 5 (sizeof_CreateNewEffect - 1) buffer L).drop 1).take
            (min L (sizeof_CreateNewEffect - 1))
          = buffer.take (min L (sizeof_CreateNewEffect - 1))
      ∧ ∀ i, min L (sizeof_CreateNewEffect - 1) < i → i < sizeof_CreateNewEffect →
          (decodedImage 5 (sizeof_CreateNewEffect - 1) buffer L)[i]? = some 0)
    ∧ (tud_hid_set_report_cb f s 7 hid_report_type_t.HID_REPORT_TYPE_FEATURE buffer L
        = some { s with
            calls := s.calls ++
              [Call.FfbOnPIDPool (decodedImage 7 (sizeof_PIDPool - 1) buffer L)] }
      ∧ (decodedImage 7 (sizeof_PIDPool - 1) buffer L).length = sizeof_PIDPool
      ∧ ((decodedImage 7 (sizeof_PIDPool - 1) buffer L).drop 1).take
            (min L (sizeof_PIDPool - 1))
          = buffer.take (min L (sizeof_PIDPool - 1))
      ∧ ∀ i, min L (sizeof_PIDPool - 1) < i → i < sizeof_PIDPool →
          (decodedImage 7 (sizeof_PIDPool - 1) buffer L)[i]? = some 0) := by
  have h3 : sizeof_CreateNewEffect - 1 = 3 := rfl
  have h4 : sizeof_PIDPool - 1 = 4 := rfl
  rw [h4] at hbuf
  rw [h3, h4]
  have hbuf3 : min L 3 ≤ buffer.length := by omega
  refine ⟨⟨set_report_create f s buffer L hbuf3, ?_, ?_, ?_⟩,
    ⟨set_report_pool f s buffer L hbuf, ?_, ?_, ?_⟩⟩
  · exact decodedImage_length 5 3 buffer L hbuf3
  · exact decodedImage_payload 5 3 buffer L hbuf3
  · intro i hlo hhi
    exact decodedImage_zeros 5 3 buffer L hbuf3 i hlo (by simpa [sizeof_CreateNewEffect] using hhi)
  · exact decodedImage_length 7 4 buffer L hbuf
  · exact decodedImage_payload 7 4 buffer L hbuf
  · intro i hlo hhi
    exact decodedImage_zeros 7 4 buffer L hbuf i hlo (by simpa [sizeof_PIDPool] using hhi)

/-- Witness of C8: a buffer of 6 bytes with declared length 6, longer than
either structure. -/
theorem feature_set_decode_witness :
    tud_hid_set_report_cb (fun _ d => d) ⟨⟨0, 0, 0, 0⟩, []⟩ 5
        hid_report_type_t.HID_REPORT_TYPE_FEATURE [1, 2, 3, 4, 5, 6] 6
      = some ⟨⟨0, 0, 0, 0⟩, [Call.FfbOnCreateNewEffect [5, 1, 2, 3]]⟩
    ∧ tud_hid_set_report_cb (fun _ d => d) ⟨⟨0, 0, 0, 0⟩, []⟩ 7
        hid_report_type_t.HID_REPORT_TYPE_FEATURE [1, 2, 3, 4, 5, 6] 6
      = some ⟨⟨0, 0, 0, 0⟩, [Call.FfbOnPIDPool [7, 1, 2, 3, 4]]⟩ :=
  ⟨(feature_set_decode (fun _ d => d) ⟨⟨0, 0, 0, 0⟩, []⟩ [1, 2, 3, 4, 5, 6] 6 (by decide)).1.1,
   (feature_set_decode (fun _ d => d) ⟨⟨0, 0, 0, 0⟩, []⟩ [1, 2, 3, 4, 5, 6] 6 (by decide)).2.1⟩

/-- C9: compose of a Feature Get.  For report id 6 and report id 7 (structures
of S = 5 bytes) and every requested length L, the call returns
n = min(L, S-1), the first n bytes of the host buffer are bytes 1..n of
the structure (for id 6, of the mailbox as it was before the call), and the
host buffer from index n on is unchanged.  The host buffer is to hold the bytes
that are copied. -/
theorem feature_get_compose (M : Nat) (s : State) (buffer : List Nat) (L : Nat)
    (hbuf : min L (sizeof_PIDBlockLoad - 1) ≤ buffer.length) :
    (∃ buffer1 s1,
      tud_hid_get_report_cb M s 6 hid_report_type_t.HID_REPORT_TYPE_FEATURE buffer L
        = some (min L (sizeof_PIDBlockLoad - 1), buffer1, s1)
      ∧ buffer1.take (min L (sizeof_PIDBlockLoad - 1))
          = (s.gNewEffectBlockLoad.bytes.drop 1).take (min L (sizeof_PIDBlockLoad - 1))
      ∧ buffer1.drop (min L (sizeof_PIDBlockLoad - 1))
          = buffer.drop (min L (sizeof_PIDBlockLoad - 1))
      ∧ buffer1.length = buffer.length)
    ∧ (∃ buffer1 s1,
      tud_hid_get_report_cb M s 7 hid_report_type_t.HID_REPORT_TYPE_FEATURE buffer L
        = some (min L (sizeof_PIDPool - 1), buffer1, s1)
      ∧ buffer1.take (min L (sizeof_PIDPool - 1))
          = ((tud_hid_get_report_cb_ans M 7).bytes.drop 1).take (min L (sizeof_PIDPool - 1))
      ∧ buffer1.drop (min L (sizeof_PIDPool - 1)) = buffer.drop (min L (sizeof_PIDPool - 1))
      ∧ buffer1.length = buffer.length) := by
  have h4 : sizeof_PIDBlockLoad - 1 = 4 := rfl
  have h4p : sizeof_PIDPool - 1 = 4 := rfl
  rw [h4] at hbuf
  rw [h4, h4p]
  constructor
  · refine ⟨_, _, get_report_blockload M s buffer L hbuf, ?_, ?_, ?_⟩
    · exact composed_take _ buffer _ (by
        simp [USB_FFBReport_PIDBlockLoad_Feature_Data_t.bytes])
    · exact composed_drop _ buffer _ (by
        simp [USB_FFBReport_PIDBlockLoad_Feature_Data_t.bytes])
    · exact composed_length _ buffer _ (by
        simp [USB_FFBReport_PIDBlockLoad_Feature_Data_t.bytes]) hbuf
  · refine ⟨_, _, get_report_pool M s buffer L hbuf, ?_, ?_, ?_⟩
    · exact composed_take _ buffer _ (by
        simp [USB_FFBReport_PIDPool_Feature_Data_t.bytes])
    · exact composed_drop _ buffer _ (by
        simp [USB_FFBReport_PIDPool_Feature_Data_t.bytes])
    · exact composed_length _ buffer _ (by
        simp [USB_FFBReport_PIDPool_Feature_Data_t.bytes]) hbuf

/-- Witness of C9: requested length 2 into a host buffer of 6 bytes. -/
theorem feature_get_compose_witness :
    (∃ buffer1 s1,
      tud_hid_get_report_cb 40 ⟨⟨6, 2, 1, 0xFFFF⟩, []⟩ 6
          hid_report_type_t.HID_REPORT_TYPE_FEATURE [9, 9, 9, 9, 9, 9] 2
        = some (min 2 (sizeof_PIDBlockLoad - 1), buffer1, s1)
      ∧ buffer1.take (min 2 (sizeof_PIDBlockLoad - 1))
          = (((⟨⟨6, 2, 1, 0xFFFF⟩, []⟩ : State).gNewEffectBlockLoad.bytes).drop 1).take
              (min 2 (sizeof_PIDBlockLoad - 1))
      ∧ buffer1.drop (min 2 (sizeof_PIDBlockLoad - 1))
          = [9, 9, 9, 9, 9, 9].drop (min 2 (sizeof_PIDBlockLoad - 1))
      ∧ buffer1.length = [9, 9, 9, 9, 9, 9].length)
    ∧ (∃ buffer1 s1,
      tud_hid_get_report_cb 40 ⟨⟨6, 2, 1, 0xFFFF⟩, []⟩ 7
          hid_report_type_t.HID_REPORT_TYPE_FEATURE [9, 9, 9, 9, 9, 9] 2
        = some (min 2 (sizeof_PIDPool - 1), buffer1, s1)
      ∧ buffer1.take (min 2 (sizeof_PIDPool - 1))
          = ((tud_hid_get_report_cb_ans 40 7).bytes.drop 1).take (min 2 (sizeof_PIDPool - 1))
      ∧ buffer1.drop (min 2 (sizeof_PIDPool - 1))
          = [9, 9, 9, 9, 9, 9].drop (min 2 (sizeof_PIDPool - 1))
      ∧ buffer1.length = [9, 9, 9, 9, 9, 9].length) :=
  feature_get_compose 40 ⟨⟨6, 2, 1, 0xFFFF⟩, []⟩ [9, 9, 9, 9, 9, 9] 2 (by decide)

/-- C10: for every requested length L a Feature Get for report id 7 returns
the first min(L, 4) bytes of the snapshot FF FF MAX_EFFECTS 03 and changes no
state: pool size 0xFFFF, simultaneous effects max equal to MAX_EFFECTS (a byte),
device-managed-pool bit (bit 0) and shared-parameter-blocks bit (bit 1) set. -/
theorem pool_poll_snapshot (MAX_EFFECTS : Nat) (s : State) (buffer : List Nat) (L : Nat)
    (hmax : MAX_EFFECTS < 256) (hbuf : min L 4 ≤ buffer.length) :
    tud_hid_get_report_cb MAX_EFFECTS s 7 hid_report_type_t.HID_REPORT_TYPE_FEATURE buffer L
        = some (min L 4,
            [0xFF, 0xFF, MAX_EFFECTS, 0x03].take (min L 4) ++ buffer.drop (min L 4), s)
    ∧ (tud_hid_get_report_cb_ans MAX_EFFECTS 7).ramPoolSize = 0xFFFF
    ∧ (tud_hid_get_report_cb_ans MAX_EFFECTS 7).maxSimultaneousEffects = MAX_EFFECTS
    ∧ (tud_hid_get_report_cb_ans MAX_EFFECTS 7).memoryManagement.testBit 0 = true
    ∧ (tud_hid_get_report_cb_ans MAX_EFFECTS 7).memoryManagement.testBit 1 = true := by
  have hu : u8 MAX_EFFECTS = MAX_EFFECTS := by unfold u8; omega
  have hbytes : (tud_hid_get_report_cb_ans MAX_EFFECTS 7).bytes.drop 1
      = [0xFF, 0xFF, MAX_EFFECTS, 0x03] := by
    simp only [tud_hid_get_report_cb_ans, USB_FFBReport_PIDPool_Feature_Data_t.bytes, hu,
      List.drop_succ_cons, List.drop_zero]
    simp [u8, u16]
  refine ⟨?_, ?_, ?_, ?_, ?_⟩
  · rw [get_report_pool MAX_EFFECTS s buffer L hbuf, hbytes]
  · simp [tud_hid_get_report_cb_ans, u16]
  · simp [tud_hid_get_report_cb_ans, hu]
  · simp [tud_hid_get_report_cb_ans, u8, Nat.testBit]
  · simp [tud_hid_get_report_cb_ans, u8, Nat.testBit]

/-- Witness of C10: MAX_EFFECTS = 40 and requested length 64 into a host
buffer of 6 bytes: the answer is FF FF 28 03. -/
theorem pool_poll_snapshot_witness :
    tud_hid_get_report_cb 40 ⟨⟨0, 0, 0, 0⟩, []⟩ 7
        hid_report_type_t.HID_REPORT_TYPE_FEATURE [9, 9, 9, 9, 9, 9] 64
      = some (4, [0xFF, 0xFF, 0x28, 0x03, 9, 9], ⟨⟨0, 0, 0, 0⟩, []⟩) :=
  (pool_poll_snapshot 40 ⟨⟨0, 0, 0, 0⟩, []⟩ [9, 9, 9, 9, 9, 9] 64 (by decide) (by decide)).1

/-! ## Feature Get: pool idempotence and unhandled requests -/

/-- C11: pool idempotence.  In a state s reached from a state s0 by any
sequence of get, set, send and descriptor calls, a Feature Get for report id 7
with a given requested length returns the same length and the same bytes as in
s0, and leaves the state, hence the mailbox, unchanged. -/
theorem pool_poll_idempotent (f : CreateNewEffectHandler) (M : Nat) (s0 s : State)
    (ops : List Op) (buffer : List Nat) (L : Nat)
    (hrun : run f M s0 ops = some s) (hbuf : min L 4 ≤ buffer.length) :
    ∃ len bytes,
      tud_hid_get_report_cb M s0 7 hid_report_type_t.HID_REPORT_TYPE_FEATURE buffer L
        = some (len, bytes, s0)
      ∧ tud_hid_get_report_cb M s 7 hid_report_type_t.HID_REPORT_TYPE_FEATURE buffer L
        = some (len, bytes, s)
      ∧ run f M s0 (ops ++ [Op.get_report 7 hid_report_type_t.HID_REPORT_TYPE_FEATURE buffer L])
        = some s := by
  refine ⟨_, _, get_report_pool M s0 buffer L hbuf, get_report_pool M s buffer L hbuf, ?_⟩
  rw [run_append f M s0 s ops _ hrun]
  simp only [run, step, get_report_pool M s buffer L hbuf, Option.map_some']

/-- Witness of C11: a create-new-effect, a block load poll, an output report
and an input report precede the pool poll. -/
theorem pool_poll_idempotent_witness :
    ∃ len bytes,
      tud_hid_get_report_cb 40 ⟨⟨0, 0, 0, 0⟩, []⟩ 7
          hid_report_type_t.HID_REPORT_TYPE_FEATURE [9, 9, 9, 9] 4
        = some (len, bytes, ⟨⟨0, 0, 0, 0⟩, []⟩)
      ∧ tud_hid_get_report_cb 40
          ⟨⟨0, 1, 1, 0xFFFF⟩,
            [Call.FfbOnCreateNewEffect [5, 1, 0, 0], Call.FfbOnUsbData [0x0A, 1, 1, 0] 4,
             Call.tud_hid_report 4 (SendInputReport_j 1 2 3 4 5 6) 12]⟩ 7
          hid_report_type_t.HID_REPORT_TYPE_FEATURE [9, 9, 9, 9] 4
        = some (len, bytes,
            ⟨⟨0, 1, 1, 0xFFFF⟩,
              [Call.FfbOnCreateNewEffect [5, 1, 0, 0], Call.FfbOnUsbData [0x0A, 1, 1, 0] 4,
               Call.tud_hid_report 4 (SendInputReport_j 1 2 3 4 5 6) 12]⟩)
      ∧ run (fun _ _ => ⟨6, 1, 1, 0xFFFF⟩) 40 ⟨⟨0, 0, 0, 0⟩, []⟩
          ([Op.set_report 5 hid_report_type_t.HID_REPORT_TYPE_FEATURE [1, 0, 0] 3,
            Op.get_report 6 hid_report_type_t.HID_REPORT_TYPE_FEATURE [0, 0, 0, 0] 4,
            Op.set_report 0 hid_report_type_t.HID_REPORT_TYPE_OUTPUT [0x0A, 1, 1, 0] 4,
            Op.send_input true 1 2 3 4 5 6]
            ++ [Op.get_report 7 hid_report_type_t.HID_REPORT_TYPE_FEATURE [9, 9, 9, 9] 4])
        = some ⟨⟨0, 1, 1, 0xFFFF⟩,
            [Call.FfbOnCreateNewEffect [5, 1, 0, 0], Call.FfbOnUsbData [0x0A, 1, 1, 0] 4,
             Call.tud_hid_report 4 (SendInputReport_j 1 2 3 4 5 6) 12]⟩ :=
  pool_poll_idempotent (fun _ _ => ⟨6, 1, 1, 0xFFFF⟩) 40 ⟨⟨0, 0, 0, 0⟩, []⟩
    ⟨⟨0, 1, 1, 0xFFFF⟩,
      [Call.FfbOnCreateNewEffect [5, 1, 0, 0], Call.FfbOnUsbData [0x0A, 1, 1, 0] 4,
       Call.tud_hid_report 4 (SendInputReport_j 1 2 3 4 5 6) 12]⟩
    [Op.set_report 5 hid_report_type_t.HID_REPORT_TYPE_FEATURE [1, 0, 0] 3,
     Op.get_report 6 hid_report_type_t.HID_REPORT_TYPE_FEATURE [0, 0, 0, 0] 4,
     Op.set_report 0 hid_report_type_t.HID_REPORT_TYPE_OUTPUT [0x0A, 1, 1, 0] 4,
     Op.send_input true 1 2 3 4 5 6]
    [9, 9, 9, 9] 4 (by decide) (by decide)

/-- C12: tud_hid_get_report_cb returns length 0, writes nothing to the host
buffer and changes no state when the report type is not Feature, and when the
report type is Feature and the report id is neither 6 nor 7. -/
theorem get_report_unhandled (M : Nat) (s : State) (report_id : Nat)
    (report_type : hid_report_type_t) (buffer : List Nat) (reqlen : Nat)
    (h : report_type ≠ hid_report_type_t.HID_REPORT_TYPE_FEATURE
          ∨ (report_id ≠ 6 ∧ report_id ≠ 7)) :
    tud_hid_get_report_cb M s report_id report_type buffer reqlen = some (0, buffer, s) := by
  unfold tud_hid_get_report_cb
  by_cases ht : report_type = hid_report_type_t.HID_REPORT_TYPE_FEATURE
  · rcases h with h | ⟨h6, h7⟩
    · exact absurd ht h
    · rw [if_neg (not_not.mpr ht), if_neg h6, if_neg h7]
  · rw [if_pos ht]

/-- Witness of C12: an Input Get for report id 6, and a Feature Get for report
id 5. -/
theorem get_report_unhandled_witness :
    tud_hid_get_report_cb 40 ⟨⟨6, 1, 1, 0⟩, []⟩ 6
        hid_report_type_t.HID_REPORT_TYPE_INPUT [9, 9, 9, 9] 4
      = some (0, [9, 9, 9, 9], ⟨⟨6, 1, 1, 0⟩, []⟩)
    ∧ tud_hid_get_report_cb 40 ⟨⟨6, 1, 1, 0⟩, []⟩ 5
        hid_report_type_t.HID_REPORT_TYPE_FEATURE [9, 9, 9, 9] 4
      = some (0, [9, 9, 9, 9], ⟨⟨6, 1, 1, 0⟩, []⟩) :=
  ⟨get_report_unhandled 40 ⟨⟨6, 1, 1, 0⟩, []⟩ 6 hid_report_type_t.HID_REPORT_TYPE_INPUT
      [9, 9, 9, 9] 4 (Or.inl (by decide)),
   get_report_unhandled 40 ⟨⟨6, 1, 1, 0⟩, []⟩ 5 hid_report_type_t.HID_REPORT_TYPE_FEATURE
      [9, 9, 9, 9] 4 (Or.inr ⟨by decide, by decide⟩)⟩

/-! ## Set report: unhandled requests -/

/-- C13: tud_hid_set_report_cb is a no-op (no call to the Effect Engine,
mailbox unchanged) for a Feature transfer with a report id other than 5 and 7
and for a transfer whose report type is neither Feature nor Output, whatever
the buffer and the length. -/
theorem set_report_unhandled (f : CreateNewEffectHandler) (s : State) (report_id : Nat)
    (report_type : hid_report_type_t) (buffer : List Nat) (bufsize : Nat)
    (h : (report_type = hid_report_type_t.HID_REPORT_TYPE_FEATURE
            ∧ report_id ≠ 5 ∧ report_id ≠ 7)
          ∨ (report_type ≠ hid_report_type_t.HID_REPORT_TYPE_FEATURE
            ∧ report_type ≠ hid_report_type_t.HID_REPORT_TYPE_OUTPUT)) :
    tud_hid_set_report_cb f s report_id report_type buffer bufsize = some s := by
  unfold tud_hid_set_report_cb
  rcases h with ⟨ht, h5, h7⟩ | ⟨hf, ho⟩
  · rw [if_pos ht, if_neg h5, if_neg h7]
  · rw [if_neg hf, if_neg ho]

/-- Witness of C13: a Feature Set for report id 6 and an Input transfer for
report id 5, with a handler that would overwrite the mailbox. -/
theorem set_report_unhandled_witness :
    tud_hid_set_report_cb (fun _ _ => ⟨6, 9, 9, 9⟩) ⟨⟨0, 1, 1, 0⟩, []⟩ 6
        hid_report_type_t.HID_REPORT_TYPE_FEATURE [1, 2, 3] 3 = some ⟨⟨0, 1, 1, 0⟩, []⟩
    ∧ tud_hid_set_report_cb (fun _ _ => ⟨6, 9, 9, 9⟩) ⟨⟨0, 1, 1, 0⟩, []⟩ 5
        hid_report_type_t.HID_REPORT_TYPE_INPUT [1, 2, 3] 3 = some ⟨⟨0, 1, 1, 0⟩, []⟩ :=
  ⟨set_report_unhandled (fun _ _ => ⟨6, 9, 9, 9⟩) ⟨⟨0, 1, 1, 0⟩, []⟩ 6
      hid_report_type_t.HID_REPORT_TYPE_FEATURE [1, 2, 3] 3
      (Or.inl ⟨rfl, by decide, by decide⟩),
   set_report_unhandled (fun _ _ => ⟨6, 9, 9, 9⟩) ⟨⟨0, 1, 1, 0⟩, []⟩ 5
      hid_report_type_t.HID_REPORT_TYPE_INPUT [1, 2, 3] 3
      (Or.inr ⟨by decide, by decide⟩)⟩

/-! ## Output reports: unknown ids, bounds -/

/-- C14 (amended): an Output report is ignored by tud_hid_set_report_cb (no
call to FfbOnUsbData) exactly when its id, declared or recovered from the
first byte, is 0; with any other id, declared by the descriptor or not, the
call completes and forwards one frame that starts with that id. -/
theorem output_ignored_iff_id_zero (f : CreateNewEffectHandler) (s : State)
    (r : Nat) (p : List Nat) :
    ∃ s1, tud_hid_set_report_cb f s r hid_report_type_t.HID_REPORT_TYPE_OUTPUT p p.length
            = some s1
      ∧ (s1.calls = s.calls ↔ effectiveId r p = 0)
      ∧ (effectiveId r p ≠ 0 →
          ∃ payload, s1.calls
            = s.calls ++ [Call.FfbOnUsbData (effectiveId r p :: payload) (payload.length + 1)]
            ∧ payload.length ≤ 64) := by
  by_cases hr : r = 0
  · subst hr
    cases p with
    | nil =>
      refine ⟨s, set_report_output_discarded f s [] _ (Or.inl rfl), ?_, ?_⟩
      · simp [effectiveId]
      · intro h
        simp [effectiveId] at h
    | cons b rest =>
      by_cases hb : b = 0
      · subst hb
        refine ⟨s, set_report_output_discarded f s _ _ (Or.inr rfl), ?_, ?_⟩
        · simp [effectiveId]
        · intro h
          simp [effectiveId] at h
      · refine ⟨_, set_report_output_recovered_whole f s b rest hb, ?_, ?_⟩
        · simp [effectiveId, hb]
        · intro _
          refine ⟨rest.take (min rest.length 64), ?_, ?_⟩
          · simp only [effectiveId, if_true, List.headD_cons, List.length_take]
            rw [Nat.min_eq_left (Nat.min_le_left _ _)]
          · rw [List.length_take]
            omega
  · refine ⟨_, set_report_output_declared f s r p p.length hr (Nat.min_le_left _ _), ?_, ?_⟩
    · simp [effectiveId, hr]
    · intro _
      refine ⟨p.take (min p.length 64), ?_, ?_⟩
      · simp only [effectiveId, if_neg hr, List.length_take]
        rw [Nat.min_eq_left (Nat.min_le_left _ _)]
      · rw [List.length_take]
        omega

/-- Counterexample to C14 as stated: 0x99 is not a report id for which the
descriptor declares an Output item, yet an Output transfer with declared id
0x99, and one with declared id 0 and first byte 0x99, are both forwarded to
FfbOnUsbData. -/
theorem unknown_output_id_counterexample :
    outputReportIds (hid_report_descriptor sampleConfig)
        = [0xF1, 1, 2, 3, 4, 5, 6, 0x0A, 0x0B, 0x0C, 0x0D]
    ∧ 0x99 ∉ outputReportIds (hid_report_descriptor sampleConfig)
    ∧ tud_hid_set_report_cb (fun _ d => d) ⟨⟨0, 0, 0, 0⟩, []⟩ 0x99
          hid_report_type_t.HID_REPORT_TYPE_OUTPUT [1, 2] 2
        = some ⟨⟨0, 0, 0, 0⟩, [Call.FfbOnUsbData [0x99, 1, 2] 3]⟩
    ∧ tud_hid_set_report_cb (fun _ d => d) ⟨⟨0, 0, 0, 0⟩, []⟩ 0
          hid_report_type_t.HID_REPORT_TYPE_OUTPUT [0x99, 1, 2] 3
        = some ⟨⟨0, 0, 0, 0⟩, [Call.FfbOnUsbData [0x99, 1, 2] 3]⟩ := by
  have hids : outputReportIds (hid_report_descriptor sampleConfig)
      = [0xF1, 1, 2, 3, 4, 5, 6, 0x0A, 0x0B, 0x0C, 0x0D] := by rfl
  refine ⟨hids, ?_, by decide, by decide⟩
  rw [hids]
  decide

/-- C18: for every Output transfer, whatever the declared id and the length,
the call completes with every access inside its object (the 65 bytes of the
scratch buffer, the declared length of the host buffer), the mailbox is
unchanged, and at most one call to FfbOnUsbData is made; its length is between
1 and 65, is the length of the frame, and does not exceed the declared length
plus the id byte.  The last part recalls what the completion of a copy means:
destination and source ranges lie inside their objects. -/
theorem output_bounds (f : CreateNewEffectHandler) (s : State) (r : Nat) (p : List Nat) :
    ∃ s1, tud_hid_set_report_cb f s r hid_report_type_t.HID_REPORT_TYPE_OUTPUT p p.length
            = some s1
      ∧ s1.gNewEffectBlockLoad = s.gNewEffectBlockLoad
      ∧ (s1.calls = s.calls
          ∨ ∃ frame len, s1.calls = s.calls ++ [Call.FfbOnUsbData frame len]
              ∧ 1 ≤ len ∧ len ≤ 65 ∧ frame.length = len ∧ len ≤ p.length + 1)
      ∧ (∀ dst dOff src sOff n out, memcpy dst dOff src sOff n = some out →
          dOff + n ≤ dst.length ∧ sOff + n ≤ src.length) := by
  have hmem : ∀ dst dOff src sOff n out, memcpy dst dOff src sOff n = some out →
      dOff + n ≤ dst.length ∧ sOff + n ≤ src.length :=
    fun dst dOff src sOff n out h => memcpy_some_bounds dst dOff src sOff n out h
  by_cases hr : r = 0
  · subst hr
    cases p with
    | nil =>
      exact ⟨s, set_report_output_discarded f s [] _ (Or.inl rfl), rfl, Or.inl rfl, hmem⟩
    | cons b rest =>
      by_cases hb : b = 0
      · subst hb
        exact ⟨s, set_report_output_discarded f s _ _ (Or.inr rfl), rfl, Or.inl rfl, hmem⟩
      · refine ⟨_, set_report_output_recovered_whole f s b rest hb, rfl, Or.inr ?_, hmem⟩
        refine ⟨_, _, rfl, ?_, ?_, ?_, ?_⟩
        · omega
        · omega
        · simp only [List.length_cons, List.length_take]
          omega
        · simp only [List.length_cons]
          omega
  · refine ⟨_, set_report_output_declared f s r p p.length hr (Nat.min_le_left _ _),
      rfl, Or.inr ?_, hmem⟩
    refine ⟨_, _, rfl, ?_, ?_, ?_, ?_⟩
    · omega
    · omega
    · simp only [List.length_cons, List.length_take]
      omega
    · omega

/-! ## Input report: transmission, descriptor layout, out-of-range fields -/

/-- C15: SendInputReport makes exactly one transmission, under report id 4
and with exactly the 12 packed bytes, if and only if the device stack is
ready; when it is not ready the state is unchanged, so that nothing is
retained and a later call sends only its own sample. -/
theorem SendInputReport_transmits_iff_ready (s : State) (ready : Bool)
    (x y z rx ry buttons x2 y2 z2 rx2 ry2 buttons2 : Nat) :
    SendInputReport ready s x y z rx ry buttons
        = (if ready = true then
            { s with calls := s.calls ++
                [Call.tud_hid_report 4 (SendInputReport_j x y z rx ry buttons) 12] }
           else s)
    ∧ (SendInputReport_j x y z rx ry buttons).length = 12
    ∧ ((SendInputReport ready s x y z rx ry buttons).calls
          = s.calls ++ [Call.tud_hid_report 4 (SendInputReport_j x y z rx ry buttons) 12]
        ↔ ready = true)
    ∧ ((SendInputReport ready s x y z rx ry buttons).calls = s.calls ↔ ready = false)
    ∧ SendInputReport true (SendInputReport false s x y z rx ry buttons)
          x2 y2 z2 rx2 ry2 buttons2
        = { s with calls := s.calls ++
              [Call.tud_hid_report 4 (SendInputReport_j x2 y2 z2 rx2 ry2 buttons2) 12] } := by
  have hlen : ∀ a b c d e g : Nat, (SendInputReport_j a b c d e g).length = 12 :=
    fun _ _ _ _ _ _ => rfl
  have htake : ∀ a b c d e g : Nat,
      (SendInputReport_j a b c d e g).take (u16 12) = SendInputReport_j a b c d e g :=
    fun _ _ _ _ _ _ => rfl
  have hu : u16 12 = 12 := rfl
  cases ready
  · simp [SendInputReport, HID_SendReport, htake, hu, hlen]
  · simp [SendInputReport, HID_SendReport, htake, hu, hlen]

/-- C16: in the reference configuration the Input fields that the descriptor
declares for report id 4 have, in order, the widths 16, 16, 12, 12, 12, 4 and
24, 96 bits in total, at the bit offsets 0, 16, 32, 44, 56, 68 and 72; read at
these offsets with these widths, the 12 bytes of SendInputReport give x, y, z,
rx, ry, the low 4 bits of buttons (hat) and its upper 24 bits (buttons). -/
theorem joystick_input_layout (c : ConfigHID) (x y z rx ry buttons : Nat)
    (hX : c.X_AXIS_NB_BITS = 16) (hY : c.Y_AXIS_NB_BITS = 16) (hZ : c.Z_AXIS_NB_BITS = 12)
    (hRX : c.RX_AXIS_NB_BITS = 12) (hRY : c.RY_AXIS_NB_BITS = 12) (hB : c.NB_BUTTONS = 24)
    (hx : x < 2 ^ 16) (hy : y < 2 ^ 16) (hz : z < 2 ^ 12) (hrx : rx < 2 ^ 12)
    (hry : ry < 2 ^ 12) (hb : buttons < 2 ^ 28) :
    (fieldsOf 0x80 4 (hid_report_descriptor c)).map HidField.width = [16, 16, 12, 12, 12, 4, 24]
    ∧ ((fieldsOf 0x80 4 (hid_report_descriptor c)).map HidField.width).sum = 96
    ∧ fieldOffsets 0 ((fieldsOf 0x80 4 (hid_report_descriptor c)).map HidField.width)
        = [0, 16, 32, 44, 56, 68, 72]
    ∧ (List.zip
          (fieldOffsets 0 ((fieldsOf 0x80 4 (hid_report_descriptor c)).map HidField.width))
          ((fieldsOf 0x80 4 (hid_report_descriptor c)).map HidField.width)).map
        (fun ow => bitField (leValue (SendInputReport_j x y z rx ry buttons)) ow.1 ow.2)
        = [x, y, z, rx, ry, buttons % 16, buttons / 16]
    ∧ bitField (leValue (SendInputReport_j x y z rx ry buttons)) 68 28 = buttons := by
  have hw : (fieldsOf 0x80 4 (hid_report_descriptor c)).map HidField.width
      = [16, 16, 12, 12, 12, 4, 24] := joystick_input_widths c hX hY hZ hRX hRY hB
  rw [hw, SendInputReport_j_arith]
  refine ⟨rfl, rfl, rfl, ?_, ?_⟩
  · simp only [fieldOffsets, List.zip_cons_cons, List.zip_nil_right, List.map_cons,
      List.map_nil, leValue, bitField]
    norm_num at hx hy hz hrx hry hb ⊢
    refine ⟨?_, ?_, ?_, ?_, ?_, ?_, ?_⟩ <;> omega
  · simp only [leValue, bitField]
    norm_num at hx hy hz hrx hry hb ⊢
    omega

/-- Witness of C16: the sample configuration and the sample of the concrete
scenario. -/
theorem joystick_input_layout_witness :
    (fieldsOf 0x80 4 (hid_report_descriptor sampleConfig)).map HidField.width
        = [16, 16, 12, 12, 12, 4, 24]
    ∧ (List.zip
          (fieldOffsets 0
            ((fieldsOf 0x80 4 (hid_report_descriptor sampleConfig)).map HidField.width))
          ((fieldsOf 0x80 4 (hid_report_descriptor sampleConfig)).map HidField.width)).map
        (fun ow => bitField
          (leValue (SendInputReport_j 0x1234 0xABCD 0x0FF 0x0AA 0x0CC 0x0ABCDEF)) ow.1 ow.2)
        = [0x1234, 0xABCD, 0x0FF, 0x0AA, 0x0CC, 0x0ABCDEF % 16, 0x0ABCDEF / 16] :=
  ⟨(joystick_input_layout sampleConfig 0x1234 0xABCD 0x0FF 0x0AA 0x0CC 0x0ABCDEF
      rfl rfl rfl rfl rfl rfl
      (by decide) (by decide) (by decide) (by decide) (by decide) (by decide)).1,
   (joystick_input_layout sampleConfig 0x1234 0xABCD 0x0FF 0x0AA 0x0CC 0x0ABCDEF
      rfl rfl rfl rfl rfl rfl
      (by decide) (by decide) (by decide) (by decide) (by decide) (by decide)).2.2.2.1⟩

/-- C19: for all field values, in range or not, the 12 bytes of
SendInputReport are those built for z, rx and ry reduced modulo 2^12 and
buttons reduced modulo 2^28: the bits above the width of a field are dropped
and reach no other field. -/
theorem SendInputReport_j_drops_high_bits (x y z rx ry buttons : Nat) :
    SendInputReport_j x y z rx ry buttons
      = SendInputReport_j x y (z % 2 ^ 12) (rx % 2 ^ 12) (ry % 2 ^ 12) (buttons % 2 ^ 28) := by
  rw [SendInputReport_j_arith, SendInputReport_j_arith]
  norm_num
  repeat' apply And.intro
  all_goals omega

/-! ## Block load poll and the id byte -/

/-- C20: the length and the bytes returned by a Feature Get for report id 6 do
not depend on the reportId field of the mailbox: two states that differ only
in that field give the same response for the same requested length (and the
same state after the call). -/
theorem blockload_poll_independent_of_id (M : Nat) (s : State) (a b : Nat)
    (buffer : List Nat) (L : Nat) (hbuf : min L 4 ≤ buffer.length) :
    ∃ len bytes s1,
      tud_hid_get_report_cb M
          { s with gNewEffectBlockLoad := { s.gNewEffectBlockLoad with reportId := a } } 6
          hid_report_type_t.HID_REPORT_TYPE_FEATURE buffer L = some (len, bytes, s1)
      ∧ tud_hid_get_report_cb M
          { s with gNewEffectBlockLoad := { s.gNewEffectBlockLoad with reportId := b } } 6
          hid_report_type_t.HID_REPORT_TYPE_FEATURE buffer L = some (len, bytes, s1) :=
  ⟨_, _, _, get_report_blockload M _ buffer L hbuf, get_report_blockload M _ buffer L hbuf⟩

/-- Witness of C20: mailboxes with report id 6 and report id 0, same other
fields; both polls return 02 01 FF FF. -/
theorem blockload_poll_independent_of_id_witness :
    ∃ len bytes s1,
      tud_hid_get_report_cb 40 ⟨⟨6, 2, 1, 0xFFFF⟩, []⟩ 6
          hid_report_type_t.HID_REPORT_TYPE_FEATURE [0, 0, 0, 0] 4 = some (len, bytes, s1)
      ∧ tud_hid_get_report_cb 40 ⟨⟨0, 2, 1, 0xFFFF⟩, []⟩ 6
          hid_report_type_t.HID_REPORT_TYPE_FEATURE [0, 0, 0, 0] 4 = some (len, bytes, s1) :=
  blockload_poll_independent_of_id 40 ⟨⟨7, 2, 1, 0xFFFF⟩, []⟩ 6 0 [0, 0, 0, 0] 4 (by decide)

/-! ## The descriptor: the set effect report -/

/-- C17 (amended): the Output report with id 1 declared by the descriptor
consists, in order, of: block index (8 bit, logical 1..40), effect type (8 bit,
logical 1..11, 11 usages), duration and trigger repeat interval (2 fields of 16
bit), gain (16 bit, logical 0..32767), trigger button (8 bit, 1..8), the axes
enable bitmap (NB_FF_AXIS fields of 1 bit), the direction enable flag (1 bit),
7 - NB_FF_AXIS bits of padding, 1 direction field of 16 bit with physical range
0..35999 (two ordinal usages, REPORT_COUNT 1), and a start delay of 16 bit.
Each entry is (size, count, logical min, logical max, physical min, physical
max, flags, usages). -/
theorem set_effect_report_fields (c : ConfigHID) :
    (fieldsOf 0x90 1 (hid_report_descriptor c)).map
        (fun f => (f.reportSize, f.reportCount, f.logicalMin, f.logicalMax,
          f.physicalMin, f.physicalMax, f.flags, f.usages))
      = [ (8, 1, 1, 40, 1, 40, 0x02, [0x22]),
          (8, 1, 1, 11, 1, 11, 0x00,
            [0x26, 0x27, 0x30, 0x31, 0x32, 0x33, 0x34, 0x40, 0x41, 0x42, 0x43]),
          (16, 2, 0, 65535, 0, 65535, 0x02, [0x50, 0x54]),
          (16, 1, 0, 32767, 0, 32767, 0x02, [0x52]),
          (8, 1, 1, 8, 1, 8, 0x02, [0x53]),
          (1, initByte c.NB_FF_AXIS, 0, 1, 1, 8, 0x02, [0x30, 0x31]),
          (1, 1, 0, 1, 1, 8, 0x02, [0x56]),
          (1, initByte (0x07 - c.NB_FF_AXIS), 0, 1, 1, 8, 0x03, []),
          (16, 1, 0, 32767, 0, 35999, 0x02, [0x000A0001, 0x000A0002]),
          (16, 1, 0, 65535, 0, 65535, 0x02, [0xA7]) ] := by
  unfold fieldsOf
  rw [reportFields_descriptor]
  rfl

/-- Counterexample to C17 as stated: in the sample configuration the data
fields of the Output report 1 are, as (size, count), 8x1, 8x1, 16x2, 16x1, 8x1,
1x1, 1x1, 16x1, 16x1; the only Output item of report 1 with physical maximum
35999 declares one field of 16 bit, not two, and a start delay field (usage
0xA7) follows it. -/
theorem set_effect_direction_counterexample :
    ((fieldsOf 0x90 1 (hid_report_descriptor sampleConfig)).filter
        (fun f => f.flags % 2 = 0)).map (fun f => (f.reportSize, f.reportCount))
      = [(8, 1), (8, 1), (16, 2), (16, 1), (8, 1), (1, 1), (1, 1), (16, 1), (16, 1)]
    ∧ ((fieldsOf 0x90 1 (hid_report_descriptor sampleConfig)).filter
        (fun f => f.flags % 2 = 0)).map (fun f => (f.reportSize, f.reportCount))
      ≠ [(8, 1), (8, 1), (16, 2), (16, 1), (8, 1), (1, 1), (1, 1), (16, 2)]
    ∧ ((fieldsOf 0x90 1 (hid_report_descriptor sampleConfig)).filter
        (fun f => f.physicalMax = 35999)).map
          (fun f => (f.reportSize, f.reportCount, f.usages))
      = [(16, 1, [0x000A0001, 0x000A0002])]
    ∧ ((fieldsOf 0x90 1 (hid_report_descriptor sampleConfig)).getLast?).map
          (fun f => (f.reportSize, f.reportCount, f.usages))
      = some (16, 1, [0xA7]) := by
  have h : ((fieldsOf 0x90 1 (hid_report_descriptor sampleConfig)).filter
        (fun f => f.flags % 2 = 0)).map (fun f => (f.reportSize, f.reportCount))
      = [(8, 1), (8, 1), (16, 2), (16, 1), (8, 1), (1, 1), (1, 1), (16, 1), (16, 1)] := by
    rfl
  refine ⟨h, ?_, by rfl, by rfl⟩
  rw [h]
  decide

/-! ## The mailbox: which calls write it -/

/-- C21: a call other than a Feature Set for report id 5 and a Feature Get for
report id 6 leaves the mailbox gNewEffectBlockLoad unchanged: a get with any
other type or id, a set with type Output, with Feature id 7 or with any other
type or id, HID_SendReport, SendInputReport and the descriptor callback.  The
call completes when its buffer holds the bytes it declares. -/
theorem mailbox_written_only_by_create_and_poll (f : CreateNewEffectHandler) (M : Nat)
    (s : State) (op : Op) (hb : op.inBounds = true) (hw : op.writesMailbox = false) :
    ∃ s1, step f M s op = some s1 ∧ s1.gNewEffectBlockLoad = s.gNewEffectBlockLoad := by
  cases op with
  | get_report report_id report_type buffer reqlen =>
    simp only [Op.inBounds, decide_eq_true_eq] at hb
    simp only [Op.writesMailbox, decide_eq_false_iff_not, not_and] at hw
    simp only [step]
    by_cases ht : report_type = hid_report_type_t.HID_REPORT_TYPE_FEATURE
    · have h6 : report_id ≠ 6 := hw ht
      by_cases h7 : report_id = 7
      · subst h7 ht
        rw [get_report_pool M s buffer reqlen (by omega)]
        exact ⟨s, rfl, rfl⟩
      · rw [get_report_other M s report_id report_type buffer reqlen (Or.inr ⟨h6, h7⟩)]
        exact ⟨s, rfl, rfl⟩
    · rw [get_report_other M s report_id report_type buffer reqlen (Or.inl ht)]
      exact ⟨s, rfl, rfl⟩
  | set_report report_id report_type buffer bufsize =>
    simp only [Op.inBounds, decide_eq_true_eq] at hb
    simp only [Op.writesMailbox, decide_eq_false_iff_not, not_and] at hw
    simp only [step]
    by_cases ht : report_type = hid_report_type_t.HID_REPORT_TYPE_FEATURE
    · have h5 : report_id ≠ 5 := hw ht
      by_cases h7 : report_id = 7
      · subst h7 ht
        rw [set_report_pool f s buffer bufsize (by omega)]
        exact ⟨_, rfl, rfl⟩
      · rw [set_report_other f s report_id report_type buffer bufsize (Or.inl ⟨ht, h5, h7⟩)]
        exact ⟨s, rfl, rfl⟩
    · by_cases ho : report_type = hid_report_type_t.HID_REPORT_TYPE_OUTPUT
      · subst ho
        exact set_report_output_mailbox f s report_id buffer bufsize hb
      · rw [set_report_other f s report_id report_type buffer bufsize (Or.inr ⟨ht, ho⟩)]
        exact ⟨s, rfl, rfl⟩
  | send_report ready id data len =>
    refine ⟨_, rfl, ?_⟩
    unfold HID_SendReport
    cases ready <;> rfl
  | send_input ready x y z rx ry buttons =>
    refine ⟨_, rfl, ?_⟩
    unfold SendInputReport HID_SendReport
    cases ready <;> rfl
  | descriptor => exact ⟨s, rfl, rfl⟩

/-- Witness of C21: a Feature Set for report id 7 with a handler that would
overwrite the mailbox; the mailbox keeps its content. -/
theorem mailbox_written_only_by_create_and_poll_witness :
    ∃ s1, step (fun _ _ => ⟨6, 9, 9, 9⟩) 40 ⟨⟨6, 2, 1, 0xFFFF⟩, []⟩
            (Op.set_report 7 hid_report_type_t.HID_REPORT_TYPE_FEATURE [1, 2, 3, 4] 4) = some s1
      ∧ s1.gNewEffectBlockLoad = (⟨⟨6, 2, 1, 0xFFFF⟩, []⟩ : State).gNewEffectBlockLoad :=
  mailbox_written_only_by_create_and_poll (fun _ _ => ⟨6, 9, 9, 9⟩) 40 ⟨⟨6, 2, 1, 0xFFFF⟩, []⟩
    (Op.set_report 7 hid_report_type_t.HID_REPORT_TYPE_FEATURE [1, 2, 3, 4] 4) rfl rfl

/-! ## The descriptor: Output payloads and the clamp -/

/-- C22: every Output report that the descriptor declares has a payload (sum
of REPORT_SIZE x REPORT_COUNT over its Output items, without the id byte) of
at most 63 bytes, hence at most 64; the largest is the vendor report 0xF1 with
63 bytes.  So an Output transfer of the declared size of its report is
forwarded whole by tud_hid_set_report_cb, with the id declared or with the id
as first byte: the clamp to 64 payload bytes cuts nothing. -/
theorem output_payload_within_clamp (c : ConfigHID) (f : CreateNewEffectHandler)
    (s : State) (id : Nat) (p : List Nat)
    (hid : id ∈ outputReportIds (hid_report_descriptor c))
    (hp : p.length = outputPayloadBytes id (hid_report_descriptor c)) :
    outputPayloadBytes id (hid_report_descriptor c) ≤ 64
    ∧ outputPayloadBytes id (hid_report_descriptor c)
        ≤ outputPayloadBytes 0xF1 (hid_report_descriptor c)
    ∧ outputPayloadBytes 0xF1 (hid_report_descriptor c) = 63
    ∧ tud_hid_set_report_cb f s id hid_report_type_t.HID_REPORT_TYPE_OUTPUT p p.length
        = some { s with calls := s.calls ++ [Call.FfbOnUsbData (id :: p) (p.length + 1)] }
    ∧ tud_hid_set_report_cb f s 0 hid_report_type_t.HID_REPORT_TYPE_OUTPUT
          (id :: p) (id :: p).length
        = some { s with calls := s.calls ++ [Call.FfbOnUsbData (id :: p) (p.length + 1)] } := by
  have hfix := output_payload_bytes_fixed c
  simp only [List.map_cons, List.map_nil, List.cons.injEq, and_true] at hfix
  obtain ⟨hF1, h2, h3, h4, h5, h6, hA, hB, hC, hD⟩ := hfix
  have h1 := set_effect_payload_bytes_le c
  rw [outputReportIds_descriptor] at hid
  have hkey : outputPayloadBytes id (hid_report_descriptor c) ≤ 63 ∧ id ≠ 0 := by
    simp only [List.mem_cons, List.mem_singleton, List.not_mem_nil, or_false] at hid
    rcases hid with h | h | h | h | h | h | h | h | h | h | h <;> subst h
    · exact ⟨by omega, by decide⟩
    · exact ⟨by omega, by decide⟩
    · exact ⟨by omega, by decide⟩
    · exact ⟨by omega, by decide⟩
    · exact ⟨by omega, by decide⟩
    · exact ⟨by omega, by decide⟩
    · exact ⟨by omega, by decide⟩
    · exact ⟨by omega, by decide⟩
    · exact ⟨by omega, by decide⟩
    · exact ⟨by omega, by decide⟩
    · exact ⟨by omega, by decide⟩
  obtain ⟨hle, hne⟩ := hkey
  have hlen : p.length ≤ 64 := by omega
  refine ⟨by omega, by omega, hF1, ?_, ?_⟩
  · exact set_report_output_declared_whole f s id p hne hlen
  · exact set_report_output_recovered_short f s id p hne hlen

/-- Witness of C22: the vendor report 0xF1 with its 63 payload bytes, in the
sample configuration. -/
theorem output_payload_within_clamp_witness :
    outputPayloadBytes 0xF1 (hid_report_descriptor sampleConfig) = 63
    ∧ tud_hid_set_report_cb (fun _ d => d) ⟨⟨0, 0, 0, 0⟩, []⟩ 0xF1
          hid_report_type_t.HID_REPORT_TYPE_OUTPUT (List.replicate 63 7)
          (List.replicate 63 7).length
        = some { (⟨⟨0, 0, 0, 0⟩, []⟩ : State) with
            calls := (⟨⟨0, 0, 0, 0⟩, []⟩ : State).calls
              ++ [Call.FfbOnUsbData (0xF1 :: List.replicate 63 7)
                    ((List.replicate 63 7).length + 1)] } :=
  ⟨(output_payload_within_clamp sampleConfig (fun _ d => d) ⟨⟨0, 0, 0, 0⟩, []⟩ 0xF1
      (List.replicate 63 7) (by rw [outputReportIds_descriptor]; decide)
      (by rw [List.length_replicate]; exact (output_payload_vendor sampleConfig).symm)).2.2.1,
   (output_payload_within_clamp sampleConfig (fun _ d => d) ⟨⟨0, 0, 0, 0⟩, []⟩ 0xF1
      (List.replicate 63 7) (by rw [outputReportIds_descriptor]; decide)
      (by rw [List.length_replicate]; exact (output_payload_vendor sampleConfig).symm)).2.2.2.1⟩

end FfbTinyusb
